import Mathlib

/-!
Shallow embedding of the ansible-lambda repository (Ansible modules that
manage AWS Lambda resources through boto3).

Python/JSON values are modelled by the inductive type `Value`; the
parameters of a module are a total function from parameter names to values (a missing
key yields `Value.vnone`, matching `module.params.get(param, None)` after
the argument-spec defaults are applied).  The boto3 SDK is an oracle `Env`
mapping a method name and its keyword arguments to either a result
dictionary or a client error carrying an error code and a rendered
exception message.  Each resource-management function of the repository is
translated into a Lean function returning `Except String _` (module failure
through `fail_json` is `Except.error` with the formatted message) together
with the ordered list of SDK calls the run issued.
-/

namespace AnsibleLambda

/-- Model of a Python/JSON value as handled by the modules. -/
inductive Value where
  | vnone : Value
  | vbool : Bool → Value
  | vint : Int → Value
  | vstr : String → Value
  | vlist : List Value → Value
  | vdict : List (String × Value) → Value

mutual

/-- Structural equality test on `Value` (Python `==` on these values). -/
def Value.beq : Value → Value → Bool
  | .vnone, .vnone => true
  | .vbool a, .vbool b => a == b
  | .vint a, .vint b => a == b
  | .vstr a, .vstr b => a == b
  | .vlist a, .vlist b => Value.beqList a b
  | .vdict a, .vdict b => Value.beqDict a b
  | _, _ => false

/-- Elementwise equality test on lists of values. -/
def Value.beqList : List Value → List Value → Bool
  | [], [] => true
  | a :: as, b :: bs => Value.beq a b && Value.beqList as bs
  | _, _ => false

/-- Pairwise equality test on dictionary entry lists. -/
def Value.beqDict : List (String × Value) → List (String × Value) → Bool
  | [], [] => true
  | (k, a) :: as, (k2, b) :: bs => k == k2 && Value.beq a b && Value.beqDict as bs
  | _, _ => false

end

mutual

theorem Value.eq_of_beq : ∀ (a b : Value), Value.beq a b = true → a = b
  | .vnone, b, h => by cases b <;> first | rfl | simp [Value.beq] at h
  | .vbool x, b, h => by
      cases b <;> simp [Value.beq] at h
      case vbool y => exact congrArg Value.vbool h
  | .vint x, b, h => by
      cases b <;> simp [Value.beq] at h
      case vint y => exact congrArg Value.vint h
  | .vstr x, b, h => by
      cases b <;> simp [Value.beq] at h
      case vstr y => exact congrArg Value.vstr h
  | .vlist x, b, h => by
      cases b <;> simp [Value.beq] at h
      case vlist y => exact congrArg Value.vlist (Value.eqList_of_beqList x y h)
  | .vdict x, b, h => by
      cases b <;> simp [Value.beq] at h
      case vdict y => exact congrArg Value.vdict (Value.eqDict_of_beqDict x y h)

theorem Value.eqList_of_beqList : ∀ (a b : List Value), Value.beqList a b = true → a = b
  | [], [], _ => rfl
  | [], _ :: _, h => by simp [Value.beqList] at h
  | _ :: _, [], h => by simp [Value.beqList] at h
  | a :: as, b :: bs, h => by
      simp only [Value.beqList, Bool.and_eq_true] at h
      exact congrArg₂ List.cons (Value.eq_of_beq a b h.1) (Value.eqList_of_beqList as bs h.2)

theorem Value.eqDict_of_beqDict : ∀ (a b : List (String × Value)), Value.beqDict a b = true → a = b
  | [], [], _ => rfl
  | [], _ :: _, h => by simp [Value.beqDict] at h
  | _ :: _, [], h => by simp [Value.beqDict] at h
  | (k, a) :: as, (k2, b) :: bs, h => by
      simp only [Value.beqDict, Bool.and_eq_true, beq_iff_eq] at h
      obtain ⟨⟨hk, ha⟩, hd⟩ := h
      subst hk
      exact congrArg₂ (fun v t => (k, v) :: t) (Value.eq_of_beq a b ha)
        (Value.eqDict_of_beqDict as bs hd)

end

mutual

theorem Value.beq_refl : ∀ (a : Value), Value.beq a a = true
  | .vnone => rfl
  | .vbool x => by simp [Value.beq]
  | .vint x => by simp [Value.beq]
  | .vstr x => by simp [Value.beq]
  | .vlist x => Value.beqList_refl x
  | .vdict x => Value.beqDict_refl x

theorem Value.beqList_refl : ∀ (a : List Value), Value.beqList a a = true
  | [] => rfl
  | a :: as => by simp [Value.beqList, Value.beq_refl a, Value.beqList_refl as]

theorem Value.beqDict_refl : ∀ (a : List (String × Value)), Value.beqDict a a = true
  | [] => rfl
  | (k, a) :: as => by simp [Value.beqDict, Value.beq_refl a, Value.beqDict_refl as]

end

instance : DecidableEq Value := fun a b =>
  if h : Value.beq a b = true then isTrue (Value.eq_of_beq a b h)
  else isFalse (fun he => h (he ▸ Value.beq_refl a))

/-- Python truthiness: None, False, 0, empty string/list/dict are falsy. -/
def Value.truthy : Value → Bool
  | .vnone => false
  | .vbool b => b
  | .vint i => i != 0
  | .vstr s => !s.isEmpty
  | .vlist xs => !xs.isEmpty
  | .vdict kvs => !kvs.isEmpty

/-- Our model of a Python dictionary with string keys, as an entry list in
insertion order. -/
abbrev Dict := List (String × Value)

/-- Lookup of a key in a dictionary (keys are unique; first binding wins). -/
def dLookup : Dict → String → Option Value
  | [], _ => none
  | (k, v) :: rest, key => if k = key then some v else dLookup rest key

/-- Python `d.get(key, default)`. -/
def dGetD (d : Dict) (key : String) (dflt : Value) : Value :=
  (dLookup d key).getD dflt

/-- Python `d.get(key)` (default None). -/
def dGet (d : Dict) (key : String) : Value :=
  dGetD d key .vnone

/-- Python `d[key] = v`: overwrite in place if the key is present, else
append the new entry. -/
def dSet (d : Dict) (key : String) (v : Value) : Dict :=
  if (dLookup d key).isSome then
    d.map (fun kv => if kv.1 = key then (key, v) else kv)
  else
    d ++ [(key, v)]

/-- Python `d.update(e)`: overwrite common keys, append the new ones in
order. -/
def dUpdate (d e : Dict) : Dict :=
  e.foldl (fun acc kv => dSet acc kv.1 kv.2) d

/-- Python `d.pop(key)` restricted to its effect on the dictionary. -/
def dPop (d : Dict) (key : String) : Dict :=
  d.filter (fun kv => kv.1 ≠ key)

/-- Python `d[key]`: raises KeyError (here: an error message) when the key
is absent or the value is not a dictionary. -/
def vIndex (v : Value) (key : String) : Except String Value :=
  match v with
  | .vdict d =>
      match dLookup d key with
      | some x => .ok x
      | none => .error ("KeyError: " ++ key)
  | _ => .error "TypeError: value is not a dict"

/-- Python `v.get(key, default)` on a value expected to be a dictionary
(the boto3 responses the code applies it to are dictionaries; any other
shape falls back to the default). -/
def vGetD (v : Value) (key : String) (dflt : Value) : Value :=
  match v with
  | .vdict d => dGetD d key dflt
  | _ => dflt

/-- Rendering of a value by Python `str`, as used in `.format` error
messages and in `str(version)`.  Only None, booleans, integers and strings
are rendered by the modules; aggregates get a placeholder. -/
def pyStr : Value → String
  | .vnone => "None"
  | .vbool b => if b then "True" else "False"
  | .vint i => toString i
  | .vstr s => s
  | .vlist _ => "[...]"
  | .vdict _ => "\x7b...\x7d"

/-- Integer content of an integer-typed module parameter (argument-spec
type \x27int\x27); Python booleans count as 0/1. -/
def pyInt : Value → Int
  | .vint i => i
  | .vbool b => if b then 1 else 0
  | _ => 0

/-- String content of a string-typed module parameter. -/
def asStr : Value → String
  | .vstr s => s
  | _ => ""

/-- String elements of a list-typed module parameter (the subnet-id and
security-group-id lists are lists of strings). -/
def asStrList : Value → List String
  | .vlist xs => xs.filterMap (fun v => match v with | .vstr s => some s | _ => none)
  | _ => []

/-- Lexicographic code-point comparison of character lists, the order
Python uses to compare strings. -/
def charListLe : List Char → List Char → Bool
  | [], _ => true
  | _ :: _, [] => false
  | a :: as, b :: bs =>
      if a.toNat < b.toNat then true
      else if b.toNat < a.toNat then false
      else charListLe as bs

/-- Python `<=` on strings. -/
def strLe (a b : String) : Bool := charListLe a.data b.data

/-- Python `sorted` on a list of strings. -/
def pySorted (l : List String) : List String :=
  l.insertionSort (fun a b => strLe a b = true)

/-- Python `sorted` applied to a list-of-strings parameter value. -/
def pySortedV (v : Value) : List String :=
  pySorted (asStrList v)

/-- Python `str.split(\x27_\x27)` on the character list of the string. -/
def splitTokens : List Char → List (List Char)
  | [] => [[]]
  | c :: cs =>
    let rest := splitTokens cs
    if c = '_' then [] :: rest
    else
      match rest with
      | [] => [[c]]
      | t :: ts => (c :: t) :: ts

/-- Python `str.capitalize()` on a character list: first character
upper-cased, every remaining character lower-cased. -/
def capitalizeL : List Char → List Char
  | [] => []
  | c :: cs => c.toUpper :: cs.map Char.toLower

/-- Source `pc(key)` (defined identically in every module of the
repository): joins the underscore-separated tokens of the key, each
capitalised. -/
def pc (key : String) : String :=
  String.join ((splitTokens key.data).map (fun t => String.mk (capitalizeL t)))

/-- Modelled from the spec: the case conversion as the spec sentence states
it, the concatenation of the underscore-separated tokens with each
token\x27s first character upper-cased and all remaining characters
lower-cased.  Stated independently of `capitalizeL` for comparison with the
source function `pc`. -/
def pcSpec (key : String) : String :=
  String.join ((splitTokens key.data).map (fun t =>
    String.mk ((t.take 1).map Char.toUpper ++ (t.drop 1).map Char.toLower)))

/-- One SDK call: the boto3 client method name and its keyword arguments. -/
structure ApiCall where
  method : String
  args : Dict
deriving DecidableEq

/-- Outcome of one SDK call: a result dictionary, or a botocore client
error carrying the error code `e.response[\x27Error\x27][\x27Code\x27]` and
the rendered exception message `str(e)`. -/
inductive CallOutcome where
  | ok : Dict → CallOutcome
  | clientError : String → String → CallOutcome
deriving DecidableEq

/-- The AWS side as the modules see it: an oracle for SDK calls, plus the
`json.loads` deserialiser used on the policy document string. -/
structure Env where
  call : String → Dict → CallOutcome
  parseJson : String → Value

/-- An Ansible module instance: its parameters (with argument-spec defaults
already applied), its check mode, and the sha256 value computed by
`get_local_package_hash` from the local deployment package. -/
structure Module where
  params : String → Value
  checkMode : Bool
  localHash : Value

/-- Result of one run of a resource operation: the `changed` flag, the
result facts and the ordered list of SDK calls issued. -/
structure RunResult where
  changed : Bool
  results : Value
  trace : List ApiCall

/-- The state-mutating (corrective) SDK methods appearing in the
repository, including the S3 deployment-package upload. -/
def mutatingMethods : List String :=
  ["upload_file", "create_function", "update_function_code", "update_function_configuration",
   "delete_function", "publish_version", "create_alias", "update_alias", "delete_alias",
   "create_event_source_mapping", "update_event_source_mapping", "delete_event_source_mapping",
   "add_permission", "remove_permission", "put_bucket_notification_configuration"]

/-- Whether an SDK call mutates AWS-side state. -/
def isMutating (c : ApiCall) : Bool :=
  mutatingMethods.contains c.method

/-- The current state a fetch outcome denotes under the repository\x27s
common pattern: a success is \x27present\x27, a ResourceNotFoundException
is \x27absent\x27, any other client error makes the module fail. -/
def fetchedState : CallOutcome → Option String
  | .ok _ => some "present"
  | .clientError code _ =>
      if code = "ResourceNotFoundException" then some "absent" else none

/-- Result dictionary a fetch outcome leaves in `results` (empty when the
resource is absent). -/
def fetchResults : CallOutcome → Dict
  | .ok r => r
  | .clientError _ _ => []

/-- Python truthiness of the optional facts dictionary (`if facts:`). -/
def factsTruthy : Option Dict → Bool
  | none => false
  | some d => !d.isEmpty

/-- Python `results or facts` as used when shaping the returned facts:
`results` when it is a non-empty dictionary, otherwise `facts` as is (None
stays None). -/
def resultsOrFacts (r : Dict) (facts? : Option Dict) : Value :=
  if !r.isEmpty then .vdict r
  else
    match facts? with
    | some f => .vdict f
    | none => .vnone

/-- Inner loop of `set_api_params(module, module_params)`: iterates the
parameter names in order and assigns `api_params[pc(param)] = value` for
every truthy module parameter value. -/
def setParamsFrom (m : Module) : Dict → List String → Dict
  | acc, [] => acc
  | acc, param :: rest =>
      let module_param := m.params param
      setParamsFrom m
        (if module_param.truthy then dSet acc (pc param) module_param else acc) rest

/-- Source `set_api_params(module, module_params)` from
src/modules/lambda.py (defined identically in src/modules/lambda_alias.py):
builds the boto3 keyword arguments from the named module parameters,
dropping every falsy value. -/
def set_api_params (m : Module) (module_params : List String) : Dict :=
  setParamsFrom m [] module_params

/-- The try/except pattern around a check-mode guarded corrective call in
src/modules/lambda.py: in check mode nothing is called and `results` keeps
its previous value; otherwise the named SDK method is called and a client
error turns into a module failure with the given message prefix. -/
def tryCall (env : Env) (checkMode : Bool) (mth : String) (args : Dict)
    (errPfx : String) (prev : Dict) : Except String (Dict × List ApiCall) :=
  if checkMode then .ok (prev, [])
  else
    match env.call mth args with
    | .ok v => .ok (v, [⟨mth, args⟩])
    | .clientError _ emsg => .error (errPfx ++ emsg)

/-- The try/except pattern around a corrective call in src/lambda.py and
src/modules/lambda_s3_event.py (no check mode there): the named SDK method
is called and a client error turns into a module failure with the given
message prefix. -/
def tryCallNC (env : Env) (mth : String) (args : Dict) (errPfx : String) :
    Except String (Dict × ApiCall) :=
  match env.call mth args with
  | .ok v => .ok (v, ⟨mth, args⟩)
  | .clientError _ emsg => .error (errPfx ++ emsg)

namespace LambdaMod

/-- Keyword rendering of the positional arguments of
`S3Transfer.upload_file(local_path, s3_bucket, s3_key)` in `upload_to_s3`. -/
def uploadArgs (m : Module) : Dict :=
  [("Filename", m.params "local_path"), ("Bucket", m.params "s3_bucket"),
   ("Key", m.params "s3_key")]

/-- Source `upload_to_s3(module, aws)` from src/modules/lambda.py: uploads
the local deployment package; any exception becomes a module failure. -/
def upload_to_s3 (m : Module) (env : Env) : Except String (List ApiCall) :=
  match env.call "upload_file" (uploadArgs m) with
  | .ok _ => .ok [⟨"upload_file", uploadArgs m⟩]
  | .clientError _ emsg => .error ("Error uploading package to s3: " ++ emsg)

/-- API parameters of the configuration fetch in `get_lambda_config`:
the function name, plus a Qualifier when the version parameter is
positive. -/
def configFetchParams (m : Module) : Dict :=
  let api_params : Dict := [("FunctionName", m.params "function_name")]
  if pyInt (m.params "version") > 0 then
    dUpdate api_params [("Qualifier", .vstr (pyStr (m.params "version")))]
  else api_params

/-- Source `get_lambda_config(module, aws)` from src/modules/lambda.py:
returns the function configuration if it exists, None when the SDK reports
ResourceNotFoundException, and fails the module on any other client
error. -/
def get_lambda_config (m : Module) (env : Env) : Except String (Option Dict) :=
  match env.call "get_function_configuration" (configFetchParams m) with
  | .ok results => .ok (some results)
  | .clientError code emsg =>
      if code = "ResourceNotFoundException" then .ok none
      else .error ("Error retrieving function configuration: " ++ emsg)

/-- The `config_params` tuple of `lambda_function`. -/
def config_params : List String := ["role", "handler", "description", "timeout", "memory_size"]

/-- The `vpc_params` tuple of `lambda_function`. -/
def vpc_params : List String := ["subnet_ids", "security_group_ids"]

/-- The `config_changed` loop of `lambda_function`: some plain
configuration field of the module parameters differs from the fetched
facts. -/
def configChanged (m : Module) (facts : Dict) : Bool :=
  config_params.any (fun param => decide (m.params param ≠ dGet facts (pc param)))

/-- The `vpc_changed` loop of `lambda_function`: the sorted subnet-id or
security-group-id parameter list differs from the sorted corresponding list
of the fetched VpcConfig. -/
def vpcChanged (m : Module) (facts : Dict) : Bool :=
  vpc_params.any (fun param =>
    let current_vpc_config := dGetD facts "VpcConfig" (.vdict [])
    decide (pySortedV (m.params param) ≠
      pySortedV (vGetD current_vpc_config (pc param) (.vlist []))))

/-- Modelled from the spec sentence about the VPC diff: the comparison on
the four extracted string lists (parameter subnet ids and security group
ids against the fetched SubnetIds and SecurityGroupIds). -/
def vpcCheck (pS pG cS cG : List String) : Bool :=
  decide (pySorted pS ≠ pySorted cS) || decide (pySorted pG ≠ pySorted cG)

/-- Code-update block of `lambda_function` (state present on an existing
function): when the fetched CodeSha256 differs from the local package hash,
the package is uploaded to S3 and `update_function_code` is called.
Returns the updated `results`, the `changed` flag and the issued calls. -/
def codeStep (m : Module) (env : Env) (facts : Dict) :
    Except String (Dict × Bool × List ApiCall) :=
  let s3_hash := dGet facts (pc "code_sha256")
  if s3_hash ≠ m.localHash then
    match (if m.checkMode then .ok [] else upload_to_s3 m env) with
    | .error e => .error e
    | .ok uplTrace =>
      let api_params := dUpdate (set_api_params m ["function_name"])
          (set_api_params m ["s3_bucket", "s3_key", "s3_object_version"])
      match tryCall env m.checkMode "update_function_code" api_params
          "Error updating function code: " [] with
      | .error e => .error e
      | .ok (r, t) => .ok (r, true, uplTrace ++ t)
  else .ok ([], false, [])

/-- Configuration-update block of `lambda_function`: when a plain
configuration field or the VPC configuration changed,
`update_function_configuration` is called. -/
def configStep (m : Module) (env : Env) (facts results1 : Dict) (changed1 : Bool) :
    Except String (Dict × Bool × List ApiCall) :=
  if configChanged m facts || vpcChanged m facts then
    let api_params := dUpdate (set_api_params m ["function_name"])
        (set_api_params m config_params)
    let api_params :=
      if (m.params "subnet_ids").truthy then
        dUpdate api_params [("VpcConfig", .vdict (set_api_params m vpc_params))]
      else
        dUpdate api_params
          [("VpcConfig", .vdict [("SubnetIds", .vlist []), ("SecurityGroupIds", .vlist [])])]
    match tryCall env m.checkMode "update_function_configuration" api_params
        "Error updating function config: " results1 with
    | .error e => .error e
    | .ok (r, t) => .ok (r, true, t)
  else .ok (results1, changed1, [])

/-- Version-publish block of `lambda_function`: when something changed and
publish is requested, `publish_version` is called. -/
def publishStep (m : Module) (env : Env) (results2 : Dict) (changed2 : Bool) :
    Except String (Dict × Bool × List ApiCall) :=
  if changed2 && (m.params "publish").truthy then
    let api_params := set_api_params m ["function_name", "description"]
    match tryCall env m.checkMode "publish_version" api_params
        "Error publishing version: " results2 with
    | .error e => .error e
    | .ok (r, t) => .ok (r, true, t)
  else .ok (results2, changed2, [])

/-- Source `lambda_function(module, aws)` from src/modules/lambda.py:
adds, updates or deletes lambda function code and configuration; the
update path is the sequence of `codeStep`, `configStep` and `publishStep`.
When both `results` and `facts` end up empty/None the source raises
TypeError in `dict(results or facts)`; that mapping is modelled as empty
here. -/
def lambda_function (m : Module) (env : Env) : Except String RunResult :=
  let state := m.params "state"
  match get_lambda_config m env with
  | .error e => .error e
  | .ok facts? =>
    let fetchTrace : List ApiCall := [⟨"get_function_configuration", configFetchParams m⟩]
    let current_state := if factsTruthy facts? then "present" else "absent"
    if state = .vstr "present" then
      if current_state = "present" then
        let facts := facts?.getD []
        match codeStep m env facts with
        | .error e => .error e
        | .ok (results1, changed1, trace1) =>
          match configStep m env facts results1 changed1 with
          | .error e => .error e
          | .ok (results2, changed2, trace2) =>
            match publishStep m env results2 changed2 with
            | .error e => .error e
            | .ok (results3, changed3, trace3) =>
              .ok { changed := changed3,
                    results := resultsOrFacts results3 facts?,
                    trace := fetchTrace ++ trace1 ++ trace2 ++ trace3 }
      else
        match (if m.checkMode then .ok [] else upload_to_s3 m env) with
        | .error e => .error e
        | .ok uplTrace =>
          let api_params := dUpdate (set_api_params m ["function_name", "runtime", "role", "handler"])
              (set_api_params m ["memory_size", "timeout", "description", "publish"])
          let api_params := dUpdate api_params
              [("Code", .vdict (set_api_params m ["s3_bucket", "s3_key", "s3_object_version"]))]
          let api_params := dUpdate api_params
              [("VpcConfig", .vdict (set_api_params m vpc_params))]
          match tryCall env m.checkMode "create_function" api_params "Error creating: " [] with
          | .error e => .error e
          | .ok (r, t) =>
            .ok { changed := true, results := resultsOrFacts r facts?,
                  trace := fetchTrace ++ uplTrace ++ t }
    else
      if current_state = "present" then
        let api_params := set_api_params m ["function_name"]
        let api_params :=
          if pyInt (m.params "version") > 0 then
            dUpdate api_params [("Qualifier", .vstr (pyStr (m.params "version")))]
          else api_params
        match tryCall env m.checkMode "delete_function" api_params
            "Error deleting function: " [] with
        | .error e => .error e
        | .ok (r, t) =>
          .ok { changed := true, results := resultsOrFacts r facts?,
                trace := fetchTrace ++ t }
      else
        .ok { changed := false, results := resultsOrFacts [] facts?, trace := fetchTrace }

end LambdaMod

namespace LambdaAlias

/-- The `re.search` test on function names in `validate_params` of
src/modules/lambda_alias.py: the full name consists of word characters,
hyphens and colons. -/
def validFunctionName (s : String) : Bool :=
  !s.isEmpty && s.data.all (fun c => c.isAlphanum || c = '_' || c = '-' || c = ':')

/-- Source `validate_params(module)` from src/modules/lambda_alias.py:
validates the function name, then rewrites `function_version` so that 0
becomes \x27$LATEST\x27 and everything else its `str` rendering. -/
def validate_params (m : Module) : Except String Module :=
  let function_name := asStr (m.params "function_name")
  if !validFunctionName function_name then
    .error ("Function name " ++ function_name ++
      " is invalid. Names must contain only alphanumeric characters and hyphens.")
  else if function_name.length > 64 then
    .error ("Function name \x22" ++ function_name ++ "\x22 exceeds 64 character limit")
  else
    let fv := m.params "function_version"
    let fv2 := if fv = Value.vint 0 then Value.vstr "$LATEST" else Value.vstr (pyStr fv)
    .ok { m with params := fun k => if k = "function_version" then fv2 else m.params k }

/-- API parameters of the alias fetch in `get_lambda_alias`. -/
def aliasFetchParams (m : Module) : Dict :=
  set_api_params m ["function_name", "name"]

/-- Source `get_lambda_alias(module)` from src/modules/lambda_alias.py:
returns the alias facts if the alias exists, None when the SDK reports
ResourceNotFoundException, and fails the module on any other client
error. -/
def get_lambda_alias (m : Module) (env : Env) : Except String (Option Dict) :=
  match env.call "get_alias" (aliasFetchParams m) with
  | .ok results => .ok (some results)
  | .clientError code emsg =>
      if code = "ResourceNotFoundException" then .ok none
      else .error ("Error retrieving function alias: " ++ emsg)

/-- The `alias_params` tuple of `lambda_alias`. -/
def alias_params : List String := ["function_version", "description"]

/-- Source `lambda_alias(module)` from src/modules/lambda_alias.py: adds,
updates or deletes lambda function aliases. -/
def lambda_alias (m : Module) (env : Env) : Except String RunResult :=
  let state := m.params "state"
  match get_lambda_alias m env with
  | .error e => .error e
  | .ok facts? =>
    let fetchTrace : List ApiCall := [⟨"get_alias", aliasFetchParams m⟩]
    let current_state := if factsTruthy facts? then "present" else "absent"
    if state = .vstr "present" then
      if current_state = "present" then
        let facts := facts?.getD []
        let changed := alias_params.any (fun param =>
          decide (m.params param ≠ dGet facts (pc param)))
        if changed then
          let api_params := dUpdate (set_api_params m ["function_name", "name"])
              (set_api_params m alias_params)
          if m.checkMode then
            .ok { changed := true, results := resultsOrFacts [] facts?, trace := fetchTrace }
          else
            match env.call "update_alias" api_params with
            | .ok r =>
              .ok { changed := true, results := resultsOrFacts r facts?,
                    trace := fetchTrace ++ [⟨"update_alias", api_params⟩] }
            | .clientError _ emsg => .error ("Error updating function alias: " ++ emsg)
        else
          .ok { changed := false, results := resultsOrFacts [] facts?, trace := fetchTrace }
      else
        let api_params := set_api_params m ["function_name", "name", "function_version", "description"]
        match tryCall env m.checkMode "create_alias" api_params
            "Error creating function alias: " [] with
        | .error e => .error e
        | .ok (r, t) =>
          .ok { changed := true, results := resultsOrFacts r facts?, trace := fetchTrace ++ t }
    else
      if current_state = "present" then
        let api_params := set_api_params m ["function_name", "name"]
        match tryCall env m.checkMode "delete_alias" api_params
            "Error deleting function alias: " [] with
        | .error e => .error e
        | .ok (r, t) =>
          .ok { changed := true, results := resultsOrFacts r facts?, trace := fetchTrace ++ t }
      else
        .ok { changed := false, results := resultsOrFacts [] facts?, trace := fetchTrace }

end LambdaAlias

namespace CombinedMod

/-- Source `check_code_params(module)` from src/lambda.py: requires the
`code` parameter to be a dictionary and converts the case of its known
keys. -/
def check_code_params (m : Module) : Except String Value :=
  match m.params "code" with
  | .vdict code_params =>
      .ok (.vdict (["zip_file", "s3_bucket", "s3_key", "s3_object_version"].foldl
        (fun acc key =>
          match dLookup code_params key with
          | some v => dSet acc (pc key) v
          | none => acc) []))
  | other => .error ("Parameter \x27code\x27 must be a dictionary. Found: " ++ pyStr other)

/-- Inner loop of `get_api_params` of src/lambda.py: truthy parameter
values are stored under their Pascal-case key (the `code` parameter going
through `check_code_params` first); a falsy required parameter fails the
module. -/
def getParamsFrom (m : Module) (resource_type : String) (required : Bool) :
    Dict → List String → Except String Dict
  | acc, [] => .ok acc
  | acc, param :: rest =>
      let value := m.params param
      if value.truthy then
        match (if param = "code" then check_code_params m else .ok value) with
        | .error e => .error e
        | .ok v => getParamsFrom m resource_type required (dSet acc (pc param) v) rest
      else
        if required then
          .error ("Parameter " ++ param ++ " required for this action on resource type "
            ++ resource_type)
        else
          getParamsFrom m resource_type required acc rest

/-- Source `get_api_params(params, module, resource_type, required)` from
src/lambda.py. -/
def get_api_params (ps : List String) (m : Module) (resource_type : String)
    (required : Bool) : Except String Dict :=
  getParamsFrom m resource_type required [] ps

/-- Source `alias_resource(client, module)` from src/lambda.py. -/
def alias_resource (m : Module) (env : Env) : Except String RunResult :=
  let state := m.params "state"
  match get_api_params ["function_name", "name"] m "alias" true with
  | .error e => .error e
  | .ok api_params =>
    match
      (match env.call "get_alias" api_params with
       | .ok r => Except.ok (r, "present")
       | .clientError code emsg =>
           if code = "ResourceNotFoundException" then Except.ok (([] : Dict), "absent")
           else Except.error ("Error retrieving alias: " ++ emsg)) with
    | .error e => .error e
    | .ok (results, current_state) =>
      let fetchTrace : List ApiCall := [⟨"get_alias", api_params⟩]
      if state = .vstr current_state then
        .ok { changed := false, results := .vdict results, trace := fetchTrace }
      else if state = .vstr "absent" then
        match tryCallNC env "delete_alias" api_params "Error deleting alias: " with
        | .error e => .error e
        | .ok (r, c) => .ok { changed := true, results := .vdict r, trace := fetchTrace ++ [c] }
      else if state = .vstr "present" then
        match get_api_params ["function_version"] m "alias" true with
        | .error e => .error e
        | .ok d1 =>
          match get_api_params ["description"] m "alias" false with
          | .error e => .error e
          | .ok d2 =>
            let api_params := dUpdate (dUpdate api_params d1) d2
            match tryCallNC env "create_alias" api_params "Error creating alias: " with
            | .error e => .error e
            | .ok (r, c) => .ok { changed := true, results := .vdict r, trace := fetchTrace ++ [c] }
      else
        if current_state = "absent" then .error "Must create alias before updating it."
        else
          match get_api_params ["function_version", "description"] m "alias" false with
          | .error e => .error e
          | .ok d1 =>
            let api_params := dUpdate api_params d1
            match tryCallNC env "update_alias" api_params "Error updating alias: " with
            | .error e => .error e
            | .ok (r, c) => .ok { changed := true, results := .vdict r, trace := fetchTrace ++ [c] }

/-- Source `lambda_code(client, module)` from src/lambda.py. -/
def lambda_code (m : Module) (env : Env) : Except String RunResult :=
  let state := m.params "state"
  match get_api_params ["function_name"] m "code" true with
  | .error e => .error e
  | .ok ap0 =>
    match get_api_params ["qualifier"] m "code" false with
    | .error e => .error e
    | .ok apq =>
      let api_params := dUpdate ap0 apq
      match
        (match env.call "get_function_configuration" api_params with
         | .ok r => Except.ok (r, "present")
         | .clientError code emsg =>
             if code = "ResourceNotFoundException" then Except.ok (([] : Dict), "absent")
             else Except.error ("Error retrieving function code: " ++ emsg)) with
      | .error e => .error e
      | .ok (results, current_state) =>
        let fetchTrace : List ApiCall := [⟨"get_function_configuration", api_params⟩]
        if state = .vstr current_state then
          .ok { changed := false, results := .vdict results, trace := fetchTrace }
        else if state = .vstr "absent" then
          match tryCallNC env "delete_function" api_params "Error deleting function code: " with
          | .error e => .error e
          | .ok (r, c) => .ok { changed := true, results := .vdict r, trace := fetchTrace ++ [c] }
        else if state = .vstr "present" then
          match get_api_params ["code", "runtime", "role", "handler"] m "code" true with
          | .error e => .error e
          | .ok d1 =>
            match get_api_params ["memory_size", "timeout", "description", "publish"] m "code" false with
            | .error e => .error e
            | .ok d2 =>
              let api_params := dUpdate (dUpdate api_params d1) d2
              match tryCallNC env "create_function" api_params "Error creating code: " with
              | .error e => .error e
              | .ok (r, c) => .ok { changed := true, results := .vdict r, trace := fetchTrace ++ [c] }
        else
          if current_state = "absent" then
            .error ("Function " ++ pyStr (m.params "function_name")
              ++ " does not exist--must create before.")
          else
            match get_api_params ["code"] m "code" true with
            | .error e => .error e
            | .ok d1 =>
              match get_api_params ["publish"] m "code" false with
              | .error e => .error e
              | .ok d2 =>
                let api_params := dUpdate (dUpdate api_params d1) d2
                match tryCallNC env "update_function_code" api_params
                    "Error updating function code code: " with
                | .error e => .error e
                | .ok (r, c) => .ok { changed := true, results := .vdict r, trace := fetchTrace ++ [c] }

/-- Source `config_details(client, module)` from src/lambda.py.  In the
source `fetch_api_params` aliases `api_params`, so the optional Qualifier
ends up in both; the model applies the same single dictionary. -/
def config_details (m : Module) (env : Env) : Except String RunResult :=
  let state := m.params "state"
  match get_api_params ["function_name"] m "config" true with
  | .error e => .error e
  | .ok ap0 =>
    match get_api_params ["qualifier"] m "config" false with
    | .error e => .error e
    | .ok apq =>
      let api_params := dUpdate ap0 apq
      match
        (match env.call "get_function_configuration" api_params with
         | .ok r => Except.ok (r, "present")
         | .clientError code emsg =>
             if code = "ResourceNotFoundException" then Except.ok (([] : Dict), "absent")
             else Except.error ("Error retrieving function config: " ++ emsg)) with
      | .error e => .error e
      | .ok (results, current_state) =>
        let fetchTrace : List ApiCall := [⟨"get_function_configuration", api_params⟩]
        if state = .vstr current_state then
          .ok { changed := false, results := .vdict results, trace := fetchTrace }
        else if state = .vstr "absent" then
          .error "Cannot delete lambda function using resource type \x27config\x27."
        else if state = .vstr "present" then
          .error "Cannot create lambda function using resource type \x27config\x27."
        else
          if current_state = "absent" then
            .error "Must create function before updating its config."
          else
            match get_api_params ["role", "handler", "description", "timeout", "memory_size"]
                m "config" false with
            | .error e => .error e
            | .ok d1 =>
              let api_params := dUpdate api_params d1
              match tryCallNC env "update_function_configuration" api_params
                  "Error updating function config: " with
              | .error e => .error e
              | .ok (r, c) => .ok { changed := true, results := .vdict r, trace := fetchTrace ++ [c] }

/-- Source `mapping_resource(client, module)` from src/lambda.py.  The
updated branch calls `client.update_alias` in the source (kept verbatim
here). -/
def mapping_resource (m : Module) (env : Env) : Except String RunResult :=
  let state := m.params "state"
  match get_api_params ["uuid"] m "mapping" true with
  | .error e => .error e
  | .ok fetch_api_params =>
    match
      (match env.call "get_event_source_mapping" fetch_api_params with
       | .ok r => Except.ok (r, "present")
       | .clientError code emsg =>
           if code = "ResourceNotFoundException" then Except.ok (([] : Dict), "absent")
           else Except.error ("Error retrieving mapping: " ++ emsg)) with
    | .error e => .error e
    | .ok (results, current_state) =>
      let fetchTrace : List ApiCall := [⟨"get_event_source_mapping", fetch_api_params⟩]
      if state = .vstr current_state then
        .ok { changed := false, results := .vdict results, trace := fetchTrace }
      else if state = .vstr "absent" then
        match tryCallNC env "delete_event_source_mapping" fetch_api_params
            "Error deleting mapping: " with
        | .error e => .error e
        | .ok (r, c) => .ok { changed := true, results := .vdict r, trace := fetchTrace ++ [c] }
      else if state = .vstr "present" then
        match get_api_params ["function_name", "event_source_arn", "starting_position"]
            m "mapping" true with
        | .error e => .error e
        | .ok d1 =>
          match get_api_params ["enabled", "batch_size"] m "mapping" false with
          | .error e => .error e
          | .ok d2 =>
            let api_params := dUpdate (dUpdate [] d1) d2
            match tryCallNC env "create_event_source_mapping" api_params
                "Error creating mapping: " with
            | .error e => .error e
            | .ok (r, c) => .ok { changed := true, results := .vdict r, trace := fetchTrace ++ [c] }
      else
        if current_state = "absent" then
          .error "Must create event source mapping before updating it."
        else
          match get_api_params ["uuid"] m "mapping" true with
          | .error e => .error e
          | .ok d1 =>
            match get_api_params ["function_name", "enabled", "batch_size"] m "mapping" false with
            | .error e => .error e
            | .ok d2 =>
              let api_params := dUpdate (dUpdate [] d1) d2
              match tryCallNC env "update_alias" api_params "Error updating mapping: " with
              | .error e => .error e
              | .ok (r, c) => .ok { changed := true, results := .vdict r, trace := fetchTrace ++ [c] }

/-- The permission-statement search loop of `policy_resource`
(src/lambda.py lines 592-597): walks the Statement list and returns the
first statement whose Sid equals the wanted statement id; a statement
without a Sid raises KeyError. -/
def findStatement (sid : Value) : List Value → Except String (Option Value)
  | [] => .ok none
  | statement :: rest =>
      match vIndex statement "Sid" with
      | .error e => .error e
      | .ok s => if s = sid then .ok (some statement) else findStatement sid rest

/-- Outcome of the search loop of `policy_resource` as (results,
current_state): the first matching statement with \x27present\x27, or the
initial empty results with \x27absent\x27. -/
def policyCurrent (sid : Value) (stmts : List Value) : Except String (Value × String) :=
  match findStatement sid stmts with
  | .error e => .error e
  | .ok (some statement) => .ok (statement, "present")
  | .ok none => .ok (.vdict [], "absent")

/-- Source `policy_resource(client, module)` from src/lambda.py.  The
fetched Policy value is a JSON string deserialised through `json.loads`
(here `env.parseJson`); a Statement entry that is not a list raises
TypeError in the source loop. -/
def policy_resource (m : Module) (env : Env) : Except String RunResult :=
  let state := m.params "state"
  match get_api_params ["function_name"] m "policy" true with
  | .error e => .error e
  | .ok ap0 =>
    match get_api_params ["qualifier"] m "policy" false with
    | .error e => .error e
    | .ok apq =>
      let api_params := dUpdate ap0 apq
      match env.call "get_policy" api_params with
      | .clientError _ emsg => .error ("Error retrieving policy: " ++ emsg)
      | .ok policy_results =>
        let fetchTrace : List ApiCall := [⟨"get_policy", api_params⟩]
        let policyJson := env.parseJson (asStr (dGetD policy_results "Policy" (.vstr "\x7b\x7d")))
        match get_api_params ["statement_id"] m "policy" true with
        | .error e => .error e
        | .ok aps =>
          let api_params := dUpdate api_params aps
          match vIndex policyJson "Statement" with
          | .error e => .error e
          | .ok stmtsVal =>
            match stmtsVal with
            | .vlist stmts =>
              match policyCurrent (dGet api_params "StatementId") stmts with
              | .error e => .error e
              | .ok (results, current_state) =>
                if state = .vstr current_state then
                  .ok { changed := false, results := results, trace := fetchTrace }
                else if state = .vstr "absent" then
                  match tryCallNC env "remove_permission" api_params
                      "Error removing policy permission: " with
                  | .error e => .error e
                  | .ok (r, c) =>
                    .ok { changed := true, results := .vdict r, trace := fetchTrace ++ [c] }
                else if state = .vstr "present" then
                  match get_api_params ["statement_id", "action", "principal"] m "policy" true with
                  | .error e => .error e
                  | .ok d1 =>
                    match get_api_params ["source_arn", "source_account"] m "policy" false with
                    | .error e => .error e
                    | .ok d2 =>
                      let api_params := dUpdate (dUpdate api_params d1) d2
                      match tryCallNC env "add_permission" api_params
                          "Error adding permission to policy: " with
                      | .error e => .error e
                      | .ok (r, c) =>
                        .ok { changed := true, results := .vdict r, trace := fetchTrace ++ [c] }
                else
                  .error "Cannot update policy permission. Use \x27present\x27 or \x27absent\x27 only."
            | _ => .error "TypeError: \x27Statement\x27 is not a list"

/-- Source `publish_version(client, module)` from src/lambda.py.  In its
fetch error branch the source formats the failure message with a
placeholder index 1 and a single argument, which raises IndexError before
`fail_json` runs. -/
def publish_version (m : Module) (env : Env) : Except String RunResult :=
  let state := m.params "state"
  match get_api_params ["function_name"] m "version" true with
  | .error e => .error e
  | .ok api_params =>
    match
      (match env.call "get_function_configuration" api_params with
       | .ok r => Except.ok (r, "present")
       | .clientError code _ =>
           if code = "ResourceNotFoundException" then Except.ok (([] : Dict), "absent")
           else Except.error "IndexError: Replacement index 1 out of range") with
    | .error e => .error e
    | .ok (results, current_state) =>
      let fetchTrace : List ApiCall := [⟨"get_function_configuration", api_params⟩]
      if state = .vstr current_state then
        .ok { changed := false, results := .vdict results, trace := fetchTrace }
      else if state = .vstr "absent" then
        .error "Cannot delete lambda function version using resource type \x27version\x27."
      else if state = .vstr "present" then
        .error "Cannot create lambda function using resource type \x27config\x27."
      else
        if current_state = "absent" then
          .error "Must create function before publishing a version."
        else
          match get_api_params ["code_sha256", "description"] m "version" false with
          | .error e => .error e
          | .ok d1 =>
            let api_params := dUpdate api_params d1
            match tryCallNC env "publish_version" api_params
                "Error updating function version: " with
            | .error e => .error e
            | .ok (r, c) => .ok { changed := true, results := .vdict r, trace := fetchTrace ++ [c] }

end CombinedMod

namespace S3Event

mutual

/-- Source `check_sub_params(value)` from src/modules/lambda_s3_event.py:
recursively converts dictionary keys to Pascal case. -/
def check_sub_params : Value → Value
  | .vdict kvs => .vdict (checkSubDict kvs)
  | .vlist xs => .vlist (checkSubList xs)
  | v => v

/-- Dictionary case of `check_sub_params`. -/
def checkSubDict : List (String × Value) → List (String × Value)
  | [] => []
  | (k, v) :: rest => (pc k, check_sub_params v) :: checkSubDict rest

/-- List case of `check_sub_params`. -/
def checkSubList : List Value → List Value
  | [] => []
  | v :: rest => check_sub_params v :: checkSubList rest

end

/-- Inner loop of `get_api_params` of src/modules/lambda_s3_event.py:
truthy values are stored under their Pascal-case key, every non-string
value going through `check_sub_params`; a falsy required parameter fails
the module. -/
def getParamsFrom (m : Module) (resource_type : String) (required : Bool) :
    Dict → List String → Except String Dict
  | acc, [] => .ok acc
  | acc, param :: rest =>
      let value := m.params param
      if value.truthy then
        let value := match value with
          | .vstr s => Value.vstr s
          | v => check_sub_params v
        getParamsFrom m resource_type required (dSet acc (pc param) value) rest
      else
        if required then
          .error ("Parameter " ++ param ++ " required for this action on resource type "
            ++ resource_type)
        else
          getParamsFrom m resource_type required acc rest

/-- Source `get_api_params(params, module, resource_type, required)` from
src/modules/lambda_s3_event.py. -/
def get_api_params (ps : List String) (m : Module) (resource_type : String)
    (required : Bool) : Except String Dict :=
  getParamsFrom m resource_type required [] ps

/-- Source `lambda_event_notification(client, module)` from
src/modules/lambda_s3_event.py.  `results.pop(\x27ResponseMetadata\x27)`
raises KeyError when that key is absent from the fetched configuration. -/
def lambda_event_notification (m : Module) (env : Env) : Except String RunResult :=
  let state := m.params "state"
  match get_api_params ["bucket"] m "s3_lambda_event" true with
  | .error e => .error e
  | .ok api_params =>
    let fetchCall : ApiCall := ⟨"get_bucket_notification_configuration", api_params⟩
    match
      (match env.call "get_bucket_notification_configuration" api_params with
       | .ok r =>
           if (dLookup r "ResponseMetadata").isSome then
             let r := dPop r "ResponseMetadata"
             if (dLookup r "LambdaFunctionConfigurations").isSome then
               Except.ok (dPop r "LambdaFunctionConfigurations", "present")
             else Except.ok (r, "absent")
           else Except.error "KeyError: ResponseMetadata"
       | .clientError code emsg =>
           if code = "ResourceNotFoundException" then Except.ok (([] : Dict), "absent")
           else Except.error ("Error retrieving s3_lambda_event: " ++ emsg)) with
    | .error e => .error e
    | .ok (results, current_state) =>
      if state = .vstr current_state then
        .ok { changed := false, results := .vdict results, trace := [fetchCall] }
      else if state = .vstr "absent" then
        let api_params := dUpdate api_params [("NotificationConfiguration", .vdict results)]
        match tryCallNC env "put_bucket_notification_configuration" api_params
            "Error removing s3_lambda_event: " with
        | .error e => .error e
        | .ok (r, c) => .ok { changed := true, results := .vdict r, trace := [fetchCall, c] }
      else if state = .vstr "present" then
        let api_params := dUpdate api_params results
        match get_api_params ["lambda_function_configurations"] m "s3_lambda_event" true with
        | .error e => .error e
        | .ok d1 =>
          let api_params := dUpdate api_params d1
          match dLookup api_params "Bucket" with
          | none => .error "KeyError: Bucket"
          | some bucket =>
            let api_params : Dict :=
              [("NotificationConfiguration", .vdict (dPop api_params "Bucket")),
               ("Bucket", bucket)]
            match tryCallNC env "put_bucket_notification_configuration" api_params
                "Error creating s3_lambda_event: " with
            | .error e => .error e
            | .ok (r, c) => .ok { changed := true, results := .vdict r, trace := [fetchCall, c] }
      else
        if current_state = "absent" then
          .error "Must create event notification before updating it."
        else
          let api_params := dUpdate api_params results
          match get_api_params ["lambda_function_configurations"] m "s3_lambda_event" true with
          | .error e => .error e
          | .ok d1 =>
            let api_params := dUpdate api_params d1
            match dLookup api_params "Bucket" with
            | none => .error "KeyError: Bucket"
            | some bucket =>
              let api_params : Dict :=
                [("NotificationConfiguration", .vdict (dPop api_params "Bucket")),
                 ("Bucket", bucket)]
              match tryCallNC env "put_bucket_notification_configuration" api_params
                  "Error updating s3_lambda_event: " with
              | .error e => .error e
              | .ok (r, c) => .ok { changed := true, results := .vdict r, trace := [fetchCall, c] }

end S3Event

/-- Concrete module fixture for the no-change runs: desired state absent
and all identifying parameters set. -/
def c3m : Module :=
  { params := fun k =>
      if k = "state" then Value.vstr "absent"
      else if k = "function_name" then Value.vstr "fn"
      else if k = "name" then Value.vstr "al"
      else if k = "uuid" then Value.vstr "u-1"
      else if k = "statement_id" then Value.vstr "sid"
      else if k = "bucket" then Value.vstr "b-1"
      else Value.vnone,
    checkMode := false, localHash := Value.vnone }

/-- Concrete environment fixture: the policy fetch succeeds with an empty
statement list, every other fetch reports ResourceNotFoundException, every
corrective call succeeds with an empty dictionary. -/
def c3env : Env :=
  { call := fun mth _ =>
      if mth = "get_policy" then .ok [("Policy", Value.vstr "p")]
      else .clientError "ResourceNotFoundException" "nf",
    parseJson := fun _ => Value.vdict [("Statement", Value.vlist [])] }

/-- Concrete module fixture for a lambda_function run in which the code,
the configuration and a published version all change. -/
def c1m : Module :=
  { params := fun k =>
      if k = "state" then Value.vstr "present"
      else if k = "publish" then Value.vbool true
      else if k = "role" then Value.vstr "r-new"
      else if k = "function_name" then Value.vstr "fn"
      else Value.vnone,
    checkMode := false, localHash := Value.vstr "BBB" }

/-- SDK responses for that run: the configuration fetch finds a function
with a different code hash and role, every other call returns an empty
dictionary. -/
def c1envr : String → Dict → Dict := fun mth _ =>
  if mth = "get_function_configuration" then
    [("CodeSha256", Value.vstr "AAA"), ("Role", Value.vstr "r-old")]
  else []

/-- Concrete environment fixture for that run: every call succeeds with
the response of `c1envr`. -/
def c1env : Env :=
  { call := fun mth args => .ok (c1envr mth args), parseJson := fun _ => Value.vnone }

/-!
Supporting lemmas: the string order used by `pySorted`, dictionary lookup
lemmas, and evaluations of `pc` on the parameter names the claims
mention.
-/

theorem charListLe_total : ∀ a b : List Char, charListLe a b = true ∨ charListLe b a = true
  | [], _ => Or.inl rfl
  | _ :: _, [] => Or.inr rfl
  | a :: as, b :: bs => by
      rcases Nat.lt_trichotomy a.toNat b.toNat with h | h | h
      · left; simp [charListLe, h]
      · rcases charListLe_total as bs with ih | ih
        · left; simp [charListLe, h, ih]
        · right; simp [charListLe, h.symm, ih]
      · right; simp [charListLe, h]

theorem charListLe_trans : ∀ a b c : List Char,
    charListLe a b = true → charListLe b c = true → charListLe a c = true
  | [], _, _, _, _ => rfl
  | _ :: _, [], _, h, _ => by simp [charListLe] at h
  | _ :: _, _ :: _, [], _, h2 => by simp [charListLe] at h2
  | a :: as, b :: bs, c :: cs, h1, h2 => by
      simp only [charListLe] at h1 h2 ⊢
      rcases Nat.lt_trichotomy a.toNat b.toNat with hab | hab | hab
      · rcases Nat.lt_trichotomy b.toNat c.toNat with hbc | hbc | hbc
        · simp [Nat.lt_trans hab hbc]
        · simp [hbc ▸ hab]
        · rw [if_neg (Nat.lt_asymm hbc), if_pos hbc] at h2; exact absurd h2 (by simp)
      · rcases Nat.lt_trichotomy b.toNat c.toNat with hbc | hbc | hbc
        · simp [hab ▸ hbc]
        · rw [if_neg (by omega), if_neg (by omega)] at h1 h2
          rw [if_neg (by omega), if_neg (by omega)]
          exact charListLe_trans as bs cs h1 h2
        · rw [if_neg (Nat.lt_asymm hbc), if_pos hbc] at h2; exact absurd h2 (by simp)
      · rw [if_neg (Nat.lt_asymm hab), if_pos hab] at h1; exact absurd h1 (by simp)

theorem char_eq_of_toNat_eq {a b : Char} (h : a.toNat = b.toNat) : a = b :=
  Char.eq_of_val_eq (UInt32.toNat.inj h)

theorem charListLe_antisymm : ∀ a b : List Char,
    charListLe a b = true → charListLe b a = true → a = b
  | [], [], _, _ => rfl
  | [], _ :: _, _, h2 => by simp [charListLe] at h2
  | _ :: _, [], h1, _ => by simp [charListLe] at h1
  | a :: as, b :: bs, h1, h2 => by
      simp only [charListLe] at h1 h2
      rcases Nat.lt_trichotomy a.toNat b.toNat with h | h | h
      · rw [if_neg (Nat.lt_asymm h), if_pos h] at h2; exact absurd h2 (by simp)
      · rw [if_neg (by omega), if_neg (by omega)] at h1 h2
        rw [char_eq_of_toNat_eq h]
        rw [charListLe_antisymm as bs h1 h2]
      · rw [if_neg (Nat.lt_asymm h), if_pos h] at h1; exact absurd h1 (by simp)

theorem strLe_antisymm {a b : String} (h1 : strLe a b = true) (h2 : strLe b a = true) :
    a = b := by
  cases a; cases b
  exact congrArg String.mk (charListLe_antisymm _ _ h1 h2)

instance : IsTotal String (fun a b => strLe a b = true) :=
  ⟨fun a b => charListLe_total a.data b.data⟩

instance : IsTrans String (fun a b => strLe a b = true) :=
  ⟨fun a b c => charListLe_trans a.data b.data c.data⟩

instance : IsAntisymm String (fun a b => strLe a b = true) :=
  ⟨fun _ _ => strLe_antisymm⟩

theorem pySorted_perm_eq {a b : List String} (h : a.Perm b) : pySorted a = pySorted b := by
  apply @List.eq_of_perm_of_sorted String (fun a b => strLe a b = true) _
  · exact ((List.perm_insertionSort _ a).trans h).trans (List.perm_insertionSort _ b).symm
  · exact List.sorted_insertionSort _ a
  · exact List.sorted_insertionSort _ b

theorem pc_subnet_ids : pc "subnet_ids" = "SubnetIds" := by decide

theorem pc_security_group_ids : pc "security_group_ids" = "SecurityGroupIds" := by decide

theorem pc_role : pc "role" = "Role" := by decide

theorem pc_handler : pc "handler" = "Handler" := by decide

theorem pc_description : pc "description" = "Description" := by decide

theorem pc_timeout : pc "timeout" = "Timeout" := by decide

theorem pc_memory_size : pc "memory_size" = "MemorySize" := by decide

theorem pc_code_sha256 : pc "code_sha256" = "CodeSha256" := by decide

theorem pc_bucket : pc "bucket" = "Bucket" := by decide

theorem dLookup_append_single_isSome (k q : String) (v : Value) :
    ∀ d : Dict, (dLookup (d ++ [(k, v)]) q).isSome = true ↔
      ((dLookup d q).isSome = true ∨ k = q)
  | [] => by
      simp only [List.nil_append, dLookup]
      by_cases h : k = q <;> simp [h]
  | (k1, v1) :: rest => by
      simp only [List.cons_append, dLookup]
      by_cases h : k1 = q
      · simp [h]
      · simp only [h, if_false]
        exact dLookup_append_single_isSome k q v rest

theorem dLookup_overwrite_isSome (k q : String) (v : Value) :
    ∀ d : Dict,
      (dLookup (d.map (fun kv => if kv.1 = k then (k, v) else kv)) q).isSome =
        (dLookup d q).isSome
  | [] => rfl
  | (k1, v1) :: rest => by
      simp only [List.map_cons]
      by_cases h : k1 = k
      · subst h
        have he : (if ((k1, v1) : String × Value).1 = k1 then (k1, v) else (k1, v1)) = (k1, v) :=
          if_pos rfl
        rw [he]
        simp only [dLookup]
        by_cases hq : k1 = q
        · rw [if_pos hq, if_pos hq]; rfl
        · rw [if_neg hq, if_neg hq]
          exact dLookup_overwrite_isSome k1 q v rest
      · have he : (if ((k1, v1) : String × Value).1 = k then (k, v) else (k1, v1)) = (k1, v1) :=
          if_neg h
        rw [he]
        simp only [dLookup]
        by_cases hq : k1 = q
        · rw [if_pos hq, if_pos hq]
        · rw [if_neg hq, if_neg hq]
          exact dLookup_overwrite_isSome k q v rest

theorem dLookup_dSet_isSome (d : Dict) (k q : String) (v : Value) :
    (dLookup (dSet d k v) q).isSome = true ↔ (q = k ∨ (dLookup d q).isSome = true) := by
  unfold dSet
  by_cases hk : (dLookup d k).isSome
  · rw [if_pos hk, dLookup_overwrite_isSome]
    constructor
    · exact Or.inr
    · rintro (h | h)
      · subst h; exact hk
      · exact h
  · rw [if_neg hk, dLookup_append_single_isSome]
    constructor
    · rintro (h | h)
      · exact Or.inr h
      · exact Or.inl h.symm
    · rintro (h | h)
      · exact Or.inr h.symm
      · exact Or.inl h

theorem dLookup_dPop (key q : String) :
    ∀ d : Dict, dLookup (dPop d key) q = if q = key then none else dLookup d q
  | [] => by by_cases h : q = key <;> simp [dPop, dLookup, h]
  | (k1, v1) :: rest => by
      simp only [dPop, List.filter]
      by_cases h1 : k1 = key
      · have : (decide (k1 ≠ key)) = false := by simp [h1]
        rw [this]
        have IH := dLookup_dPop key q rest
        rw [dPop] at IH
        rw [IH]
        by_cases hq : q = key
        · simp [hq]
        · have : k1 ≠ q := by rw [h1]; exact fun he => hq he.symm
          simp [hq, dLookup, this]
      · have : (decide (k1 ≠ key)) = true := by simp [h1]
        rw [this]
        simp only [dLookup]
        by_cases hk1q : k1 = q
        · have hq : ¬ q = key := by rw [← hk1q]; exact h1
          simp [hk1q, hq]
        · have IH := dLookup_dPop key q rest
          rw [dPop] at IH
          simp only [hk1q, if_false, IH]

theorem dLookup_setParamsFrom (m : Module) :
    ∀ (ps : List String) (acc : Dict) (q : String),
      (dLookup (setParamsFrom m acc ps) q).isSome = true ↔
        ((dLookup acc q).isSome = true ∨
          ∃ p ∈ ps, pc p = q ∧ (m.params p).truthy = true)
  | [], acc, q => by simp [setParamsFrom]
  | p :: rest, acc, q => by
      simp only [setParamsFrom]
      by_cases ht : (m.params p).truthy
      · rw [if_pos ht, dLookup_setParamsFrom m rest _ q, dLookup_dSet_isSome]
        simp only [List.mem_cons]
        constructor
        · rintro (⟨h | h⟩ | ⟨x, hx, hpc, htx⟩)
          · exact Or.inr ⟨p, Or.inl rfl, h.symm, ht⟩
          · exact Or.inl h
          · exact Or.inr ⟨x, Or.inr hx, hpc, htx⟩
        · rintro (h | ⟨x, hx | hx, hpc, htx⟩)
          · exact Or.inl (Or.inr h)
          · subst hx; exact Or.inl (Or.inl hpc.symm)
          · exact Or.inr ⟨x, hx, hpc, htx⟩
      · rw [if_neg ht, dLookup_setParamsFrom m rest acc q]
        simp only [List.mem_cons]
        constructor
        · rintro (h | ⟨x, hx, hpc, htx⟩)
          · exact Or.inl h
          · exact Or.inr ⟨x, Or.inr hx, hpc, htx⟩
        · rintro (h | ⟨x, hx | hx, hpc, htx⟩)
          · exact Or.inl h
          · subst hx; exact absurd htx ht
          · exact Or.inr ⟨x, hx, hpc, htx⟩

theorem dLookup_getParamsFrom (m : Module) (rt : String) :
    ∀ (ps : List String) (acc d : Dict) (q : String),
      CombinedMod.getParamsFrom m rt false acc ps = .ok d →
      ((dLookup d q).isSome = true ↔
        ((dLookup acc q).isSome = true ∨
          ∃ p ∈ ps, pc p = q ∧ (m.params p).truthy = true))
  | [], acc, d, q, h => by
      simp only [CombinedMod.getParamsFrom, Except.ok.injEq] at h
      subst h
      simp
  | p :: rest, acc, d, q, h => by
      simp only [CombinedMod.getParamsFrom] at h
      by_cases ht : (m.params p).truthy
      · rw [if_pos ht] at h
        cases hc : (if p = "code" then CombinedMod.check_code_params m else .ok (m.params p)) with
        | error e => rw [hc] at h; exact absurd h (by simp)
        | ok v =>
            rw [hc] at h
            rw [dLookup_getParamsFrom m rt rest _ d q h, dLookup_dSet_isSome]
            simp only [List.mem_cons]
            constructor
            · rintro (⟨h | h⟩ | ⟨x, hx, hpc, htx⟩)
              · exact Or.inr ⟨p, Or.inl rfl, h.symm, ht⟩
              · exact Or.inl h
              · exact Or.inr ⟨x, Or.inr hx, hpc, htx⟩
            · rintro (h | ⟨x, hx | hx, hpc, htx⟩)
              · exact Or.inl (Or.inr h)
              · subst hx; exact Or.inl (Or.inl hpc.symm)
              · exact Or.inr ⟨x, hx, hpc, htx⟩
      · rw [if_neg ht, if_neg (by simp)] at h
        rw [dLookup_getParamsFrom m rt rest acc d q h]
        simp only [List.mem_cons]
        constructor
        · rintro (h | ⟨x, hx, hpc, htx⟩)
          · exact Or.inl h
          · exact Or.inr ⟨x, Or.inr hx, hpc, htx⟩
        · rintro (h | ⟨x, hx | hx, hpc, htx⟩)
          · exact Or.inl h
          · subst hx; exact absurd htx ht
          · exact Or.inr ⟨x, hx, hpc, htx⟩

theorem findStatement_spec (sid : Value) :
    ∀ (stmts : List Value) (found : Option Value),
      CombinedMod.findStatement sid stmts = .ok found →
      (found.isSome = true ↔ ∃ s ∈ stmts, vIndex s "Sid" = .ok sid) ∧
      (∀ st, found = some st →
        ∃ pre suf, stmts = pre ++ st :: suf ∧ vIndex st "Sid" = .ok sid ∧
          ∀ s ∈ pre, vIndex s "Sid" ≠ .ok sid)
  | [], found, h => by
      simp only [CombinedMod.findStatement, Except.ok.injEq] at h
      subst h
      simp
  | statement :: rest, found, h => by
      simp only [CombinedMod.findStatement] at h
      cases hidx : vIndex statement "Sid" with
      | error e => rw [hidx] at h; exact absurd h (by simp)
      | ok s =>
          rw [hidx] at h
          dsimp only at h
          by_cases hs : s = sid
          · rw [if_pos hs] at h
            simp only [Except.ok.injEq] at h
            subst h
            subst hs
            refine ⟨by simp; exact Or.inl hidx, fun st hst => ?_⟩
            simp only [Option.some.injEq] at hst
            subst hst
            exact ⟨[], rest, rfl, hidx, by simp⟩
          · rw [if_neg hs] at h
            have IH := findStatement_spec sid rest found h
            have hne : vIndex statement "Sid" ≠ .ok sid := by
              rw [hidx]; simp [hs]
            refine ⟨?_, fun st hst => ?_⟩
            · rw [IH.1]
              simp only [List.mem_cons]
              constructor
              · rintro ⟨x, hx, hvx⟩
                exact ⟨x, Or.inr hx, hvx⟩
              · rintro ⟨x, hx | hx, hvx⟩
                · subst hx; exact absurd hvx hne
                · exact ⟨x, hx, hvx⟩
            · obtain ⟨pre, suf, hsplit, hvst, hpre⟩ := IH.2 st hst
              refine ⟨statement :: pre, suf, by simp [hsplit], hvst, ?_⟩
              intro x hx
              rcases List.mem_cons.mp hx with hx | hx
              · subst hx; exact hne
              · exact hpre x hx

/-- Claim C6: in `policy_resource`, after the policy fetch, the current
state computed by the Sid search loop is present exactly when some
statement of the Statement list carries the required Sid; in that case the
first such statement becomes the result, otherwise the state is absent and
the result stays empty. -/
theorem C6_policy_current_state :
    ∀ (sid : Value) (stmts : List Value) (res : Value) (cs : String),
      CombinedMod.policyCurrent sid stmts = .ok (res, cs) →
      ((cs = "present") ↔ ∃ s ∈ stmts, vIndex s "Sid" = .ok sid) ∧
      (cs = "present" →
        ∃ pre suf, stmts = pre ++ res :: suf ∧ vIndex res "Sid" = .ok sid ∧
          ∀ s ∈ pre, vIndex s "Sid" ≠ .ok sid) ∧
      (¬ cs = "present" → cs = "absent" ∧ res = .vdict []) := by
  intro sid stmts res cs h
  unfold CombinedMod.policyCurrent at h
  cases hf : CombinedMod.findStatement sid stmts with
  | error e => rw [hf] at h; exact absurd h (by simp)
  | ok found =>
      rw [hf] at h
      have spec := findStatement_spec sid stmts found hf
      cases found with
      | some st =>
          simp only [Except.ok.injEq, Prod.mk.injEq] at h
          obtain ⟨hres, hcs⟩ := h
          subst hres
          subst hcs
          refine ⟨?_, fun _ => spec.2 st rfl, fun hne => absurd rfl hne⟩
          simp only [true_iff]
          exact spec.1.mp rfl
      | none =>
          simp only [Except.ok.injEq, Prod.mk.injEq] at h
          obtain ⟨hres, hcs⟩ := h
          subst hres
          subst hcs
          refine ⟨?_, fun hp => absurd hp (by simp), fun _ => ⟨rfl, rfl⟩⟩
          constructor
          · intro hp; exact absurd hp (by simp)
          · intro hex
            exact absurd (spec.1.mpr hex) (by simp)

/-- Witness for C6 at a concrete policy with two statements. -/
theorem C6_witness :
    ∃ s ∈ [Value.vdict [("Sid", Value.vstr "other")],
           Value.vdict [("Sid", Value.vstr "sid-1"), ("Action", Value.vstr "a")]],
      vIndex s "Sid" = .ok (Value.vstr "sid-1") :=
  (C6_policy_current_state (Value.vstr "sid-1")
    [Value.vdict [("Sid", Value.vstr "other")],
     Value.vdict [("Sid", Value.vstr "sid-1"), ("Action", Value.vstr "a")]]
    (Value.vdict [("Sid", Value.vstr "sid-1"), ("Action", Value.vstr "a")])
    "present" rfl).1.mp rfl

/-- Claim C8: the API-parameter dictionaries built by `set_api_params` and
by `get_api_params` with required set to False contain the key pc(p) for a
listed parameter p exactly when the module value of p is truthy, so falsy
values (False, 0, None, empty string, empty list) are omitted from the AWS
call. -/
theorem C8_truthy_params_in_api_dict :
    ∀ (m : Module) (ps : List String) (p : String), p ∈ ps →
      (∀ q ∈ ps, pc q = pc p → q = p) →
      (((dLookup (set_api_params m ps) (pc p)).isSome = true) ↔
        (m.params p).truthy = true) ∧
      (∀ rt d, CombinedMod.get_api_params ps m rt false = .ok d →
        (((dLookup d (pc p)).isSome = true) ↔ (m.params p).truthy = true)) := by
  intro m ps p hmem hinj
  constructor
  · rw [set_api_params, dLookup_setParamsFrom]
    constructor
    · rintro (h | ⟨q, hq, hpc, ht⟩)
      · simp [dLookup] at h
      · rwa [hinj q hq hpc] at ht
    · intro ht
      exact Or.inr ⟨p, hmem, rfl, ht⟩
  · intro rt d hd
    rw [dLookup_getParamsFrom m rt ps [] d (pc p) hd]
    constructor
    · rintro (h | ⟨q, hq, hpc, ht⟩)
      · simp [dLookup] at h
      · rwa [hinj q hq hpc] at ht
    · intro ht
      exact Or.inr ⟨p, hmem, rfl, ht⟩

/-- Witness for C8: publish=False is dropped from the built parameters
while the truthy function name is kept. -/
theorem C8_witness :
    (((dLookup (set_api_params
        { params := fun k => if k = "function_name" then Value.vstr "fn" else Value.vbool false,
          checkMode := false, localHash := Value.vnone }
        ["function_name", "publish"]) (pc "publish")).isSome = true) ↔
      (({ params := fun k => if k = "function_name" then Value.vstr "fn" else Value.vbool false,
          checkMode := false, localHash := Value.vnone } : Module).params "publish").truthy
        = true) ∧
    (((dLookup (set_api_params
        { params := fun k => if k = "function_name" then Value.vstr "fn" else Value.vbool false,
          checkMode := false, localHash := Value.vnone }
        ["function_name", "publish"]) (pc "function_name")).isSome = true) ↔
      (({ params := fun k => if k = "function_name" then Value.vstr "fn" else Value.vbool false,
          checkMode := false, localHash := Value.vnone } : Module).params
          "function_name").truthy = true) :=
  ⟨(C8_truthy_params_in_api_dict _ ["function_name", "publish"] "publish"
      (by decide) (by decide)).1,
   (C8_truthy_params_in_api_dict _ ["function_name", "publish"] "function_name"
      (by decide) (by decide)).1⟩

/-- Claim C9: in the lambda_s3_event module with state absent, when the
fetched bucket notification configuration contains a
LambdaFunctionConfigurations entry, the put call re-sends exactly the
fetched configuration with only that entry and ResponseMetadata removed,
leaving every other notification rule of the bucket in place. -/
theorem C9_s3_event_absent_frame :
    ∀ (m : Module) (env : Env) (f : Dict) (bs : String),
      m.params "state" = .vstr "absent" →
      m.params "bucket" = .vstr bs →
      bs ≠ "" →
      env.call "get_bucket_notification_configuration" [("Bucket", .vstr bs)] = .ok f →
      (dLookup f "ResponseMetadata").isSome = true →
      (dLookup f "LambdaFunctionConfigurations").isSome = true →
      (∀ args, ∃ v, env.call "put_bucket_notification_configuration" args = .ok v) →
      ∃ r, S3Event.lambda_event_notification m env = .ok r ∧
        r.changed = true ∧
        r.trace = [⟨"get_bucket_notification_configuration", [("Bucket", .vstr bs)]⟩,
          ⟨"put_bucket_notification_configuration",
            [("Bucket", .vstr bs),
             ("NotificationConfiguration",
               .vdict (dPop (dPop f "ResponseMetadata") "LambdaFunctionConfigurations"))]⟩] ∧
        dLookup (dPop (dPop f "ResponseMetadata") "LambdaFunctionConfigurations")
          "LambdaFunctionConfigurations" = none ∧
        dLookup (dPop (dPop f "ResponseMetadata") "LambdaFunctionConfigurations")
          "ResponseMetadata" = none ∧
        (∀ k, k ≠ "LambdaFunctionConfigurations" → k ≠ "ResponseMetadata" →
          dLookup (dPop (dPop f "ResponseMetadata") "LambdaFunctionConfigurations") k =
            dLookup f k) := by
  intro m env f bs hstate hb hbne hfetch hrm hlfc hput
  have hap : S3Event.get_api_params ["bucket"] m "s3_lambda_event" true =
      .ok [("Bucket", Value.vstr bs)] := by
    unfold S3Event.get_api_params
    simp [S3Event.getParamsFrom, hb, Value.truthy, hbne, dSet, dLookup, pc_bucket,
      String.isEmpty_iff]
  obtain ⟨pv, hpv⟩ := hput [("Bucket", Value.vstr bs),
    ("NotificationConfiguration",
      .vdict (dPop (dPop f "ResponseMetadata") "LambdaFunctionConfigurations"))]
  have hupd : dUpdate [("Bucket", Value.vstr bs)]
      [("NotificationConfiguration",
        .vdict (dPop (dPop f "ResponseMetadata") "LambdaFunctionConfigurations"))] =
      [("Bucket", Value.vstr bs),
       ("NotificationConfiguration",
        .vdict (dPop (dPop f "ResponseMetadata") "LambdaFunctionConfigurations"))] := by
    simp [dUpdate, dSet, dLookup]
  refine ⟨{ changed := true,
            results := Value.vdict pv,
            trace := [⟨"get_bucket_notification_configuration", [("Bucket", Value.vstr bs)]⟩,
              ⟨"put_bucket_notification_configuration",
                [("Bucket", Value.vstr bs),
                 ("NotificationConfiguration",
                   Value.vdict (dPop (dPop f "ResponseMetadata")
                     "LambdaFunctionConfigurations"))]⟩] },
    ?_, rfl, rfl, ?_, ?_, ?_⟩
  · unfold S3Event.lambda_event_notification
    rw [hap]
    dsimp only
    rw [hfetch]
    dsimp only
    rw [hrm]
    have hlfc2 : (dLookup (dPop f "ResponseMetadata")
        "LambdaFunctionConfigurations").isSome = true := by
      rw [dLookup_dPop, if_neg (by decide)]
      exact hlfc
    rw [hlfc2]
    simp only [eq_self_iff_true, if_true]
    rw [hstate]
    rw [if_neg (show ¬ (Value.vstr "absent" = Value.vstr "present") by decide)]
    rw [if_pos (show Value.vstr "absent" = Value.vstr "absent" from rfl)]
    rw [hupd]
    unfold tryCallNC
    rw [hpv]
  · rw [dLookup_dPop]
    simp
  · rw [dLookup_dPop, if_neg (by decide), dLookup_dPop]
    simp
  · intro k hk1 hk2
    rw [dLookup_dPop, if_neg hk1, dLookup_dPop, if_neg hk2]

/-- Witness for C9 at a concrete bucket configuration carrying an extra
topic rule. -/
theorem C9_witness :
    ∃ r, S3Event.lambda_event_notification
        { params := fun k => if k = "state" then Value.vstr "absent"
            else if k = "bucket" then Value.vstr "b-1" else Value.vnone,
          checkMode := false, localHash := Value.vnone }
        { call := fun mth _ =>
            if mth = "get_bucket_notification_configuration" then
              .ok [("ResponseMetadata", Value.vdict []),
                   ("TopicConfigurations", Value.vlist []),
                   ("LambdaFunctionConfigurations", Value.vlist [])]
            else .ok [],
          parseJson := fun _ => Value.vnone } = .ok r ∧ r.changed = true := by
  obtain ⟨r, h1, h2, _⟩ := C9_s3_event_absent_frame
      { params := fun k => if k = "state" then Value.vstr "absent"
          else if k = "bucket" then Value.vstr "b-1" else Value.vnone,
        checkMode := false, localHash := Value.vnone }
      { call := fun mth _ =>
          if mth = "get_bucket_notification_configuration" then
            .ok [("ResponseMetadata", Value.vdict []),
                 ("TopicConfigurations", Value.vlist []),
                 ("LambdaFunctionConfigurations", Value.vlist [])]
          else .ok [],
        parseJson := fun _ => Value.vnone }
      [("ResponseMetadata", Value.vdict []),
       ("TopicConfigurations", Value.vlist []),
       ("LambdaFunctionConfigurations", Value.vlist [])]
      "b-1" rfl rfl (by decide) rfl rfl rfl (fun args => ⟨[], rfl⟩)
  exact ⟨r, h1, h2⟩

theorem configOrVpc_iff (m : Module) (f : Dict) :
    (LambdaMod.configChanged m f || LambdaMod.vpcChanged m f) = true ↔
      (m.params "role" ≠ dGet f "Role" ∨
       m.params "handler" ≠ dGet f "Handler" ∨
       m.params "description" ≠ dGet f "Description" ∨
       m.params "timeout" ≠ dGet f "Timeout" ∨
       m.params "memory_size" ≠ dGet f "MemorySize" ∨
       pySorted (asStrList (m.params "subnet_ids")) ≠
         pySorted (asStrList (vGetD (dGetD f "VpcConfig" (.vdict [])) "SubnetIds" (.vlist []))) ∨
       pySorted (asStrList (m.params "security_group_ids")) ≠
         pySorted (asStrList
           (vGetD (dGetD f "VpcConfig" (.vdict [])) "SecurityGroupIds" (.vlist [])))) := by
  simp [LambdaMod.configChanged, LambdaMod.config_params, LambdaMod.vpcChanged,
    LambdaMod.vpc_params, pySortedV, pc_role, pc_handler, pc_description, pc_timeout,
    pc_memory_size, pc_subnet_ids, pc_security_group_ids, or_assoc]

/-- Claim C2: in `lambda_function` with state present on an existing
function, `update_function_configuration` is called exactly when one of
role, handler, description, timeout, memory_size differs from the fetched
configuration or a sorted VPC id list differs from the fetched sorted list,
and the run is marked changed whenever that call is made. -/
theorem C2_update_function_configuration_iff_diff :
    ∀ (m : Module) (env : Env) (envr : String → Dict → Dict) (f : Dict),
      m.checkMode = false →
      m.params "state" = .vstr "present" →
      (∀ mth args, env.call mth args = .ok (envr mth args)) →
      f = envr "get_function_configuration" (LambdaMod.configFetchParams m) →
      f ≠ [] →
      ∃ r, LambdaMod.lambda_function m env = .ok r ∧
        (("update_function_configuration" ∈ r.trace.map ApiCall.method) ↔
          (m.params "role" ≠ dGet f "Role" ∨
           m.params "handler" ≠ dGet f "Handler" ∨
           m.params "description" ≠ dGet f "Description" ∨
           m.params "timeout" ≠ dGet f "Timeout" ∨
           m.params "memory_size" ≠ dGet f "MemorySize" ∨
           pySorted (asStrList (m.params "subnet_ids")) ≠
             pySorted (asStrList
               (vGetD (dGetD f "VpcConfig" (.vdict [])) "SubnetIds" (.vlist []))) ∨
           pySorted (asStrList (m.params "security_group_ids")) ≠
             pySorted (asStrList
               (vGetD (dGetD f "VpcConfig" (.vdict [])) "SecurityGroupIds" (.vlist []))))) ∧
        (("update_function_configuration" ∈ r.trace.map ApiCall.method) →
          r.changed = true) := by
  intro m env envr f hcm hstate henv hf hfne
  have hft : factsTruthy (some f) = true := by
    cases f with
    | nil => exact absurd rfl hfne
    | cons a l => rfl
  by_cases hsha : dGet f (pc "code_sha256") ≠ m.localHash <;>
  by_cases hD : (LambdaMod.configChanged m f || LambdaMod.vpcChanged m f) = true <;>
  by_cases hpub : (m.params "publish").truthy = true <;>
  exact ⟨_,
    by
      unfold LambdaMod.lambda_function LambdaMod.codeStep LambdaMod.configStep
        LambdaMod.publishStep LambdaMod.get_lambda_config LambdaMod.upload_to_s3 tryCall
      simp only [henv]
      rw [← hf]
      simp [hft, hstate, hcm, hsha, hD, hpub]
      rfl,
    by
      rw [← configOrVpc_iff m f]
      simp [hD, hsha, hpub],
    by simp [hD, hsha, hpub]⟩

theorem noop_alias (m : Module) (env : Env) (ap : Dict) (outcome : CallOutcome)
    (cs : String)
    (hap : CombinedMod.get_api_params ["function_name", "name"] m "alias" true = .ok ap)
    (hout : env.call "get_alias" ap = outcome)
    (hfs : fetchedState outcome = some cs)
    (hstate : m.params "state" = .vstr cs) :
    ∃ r, CombinedMod.alias_resource m env = .ok r ∧ r.changed = false ∧
      r.trace = [⟨"get_alias", ap⟩] ∧ r.results = .vdict (fetchResults outcome) := by
  unfold CombinedMod.alias_resource
  rw [hap]
  dsimp only
  rw [hout]
  cases outcome with
  | ok v =>
      simp only [fetchedState, Option.some.injEq] at hfs
      subst hfs
      rw [hstate]
      dsimp only
      rw [if_pos rfl]
      exact ⟨_, rfl, rfl, rfl, rfl⟩
  | clientError code emsg =>
      simp only [fetchedState] at hfs
      by_cases hcode : code = "ResourceNotFoundException"
      · rw [if_pos hcode] at hfs
        simp only [Option.some.injEq] at hfs
        subst hfs
        dsimp only
        rw [if_pos hcode]
        dsimp only
        rw [hstate]
        rw [if_pos rfl]
        exact ⟨_, rfl, rfl, rfl, rfl⟩
      · rw [if_neg hcode] at hfs
        exact absurd hfs (by simp)

theorem noop_code (m : Module) (env : Env) (ap0 apq : Dict) (outcome : CallOutcome)
    (cs : String)
    (hap0 : CombinedMod.get_api_params ["function_name"] m "code" true = .ok ap0)
    (hapq : CombinedMod.get_api_params ["qualifier"] m "code" false = .ok apq)
    (hout : env.call "get_function_configuration" (dUpdate ap0 apq) = outcome)
    (hfs : fetchedState outcome = some cs)
    (hstate : m.params "state" = .vstr cs) :
    ∃ r, CombinedMod.lambda_code m env = .ok r ∧ r.changed = false ∧
      r.trace = [⟨"get_function_configuration", dUpdate ap0 apq⟩] ∧
      r.results = .vdict (fetchResults outcome) := by
  unfold CombinedMod.lambda_code
  rw [hap0]
  dsimp only
  rw [hapq]
  dsimp only
  rw [hout]
  cases outcome with
  | ok v =>
      simp only [fetchedState, Option.some.injEq] at hfs
      subst hfs
      rw [hstate]
      dsimp only
      rw [if_pos rfl]
      exact ⟨_, rfl, rfl, rfl, rfl⟩
  | clientError code emsg =>
      simp only [fetchedState] at hfs
      by_cases hcode : code = "ResourceNotFoundException"
      · rw [if_pos hcode] at hfs
        simp only [Option.some.injEq] at hfs
        subst hfs
        dsimp only
        rw [if_pos hcode]
        dsimp only
        rw [hstate]
        rw [if_pos rfl]
        exact ⟨_, rfl, rfl, rfl, rfl⟩
      · rw [if_neg hcode] at hfs
        exact absurd hfs (by simp)

theorem noop_config (m : Module) (env : Env) (ap0 apq : Dict) (outcome : CallOutcome)
    (cs : String)
    (hap0 : CombinedMod.get_api_params ["function_name"] m "config" true = .ok ap0)
    (hapq : CombinedMod.get_api_params ["qualifier"] m "config" false = .ok apq)
    (hout : env.call "get_function_configuration" (dUpdate ap0 apq) = outcome)
    (hfs : fetchedState outcome = some cs)
    (hstate : m.params "state" = .vstr cs) :
    ∃ r, CombinedMod.config_details m env = .ok r ∧ r.changed = false ∧
      r.trace = [⟨"get_function_configuration", dUpdate ap0 apq⟩] ∧
      r.results = .vdict (fetchResults outcome) := by
  unfold CombinedMod.config_details
  rw [hap0]
  dsimp only
  rw [hapq]
  dsimp only
  rw [hout]
  cases outcome with
  | ok v =>
      simp only [fetchedState, Option.some.injEq] at hfs
      subst hfs
      rw [hstate]
      dsimp only
      rw [if_pos rfl]
      exact ⟨_, rfl, rfl, rfl, rfl⟩
  | clientError code emsg =>
      simp only [fetchedState] at hfs
      by_cases hcode : code = "ResourceNotFoundException"
      · rw [if_pos hcode] at hfs
        simp only [Option.some.injEq] at hfs
        subst hfs
        dsimp only
        rw [if_pos hcode]
        dsimp only
        rw [hstate]
        rw [if_pos rfl]
        exact ⟨_, rfl, rfl, rfl, rfl⟩
      · rw [if_neg hcode] at hfs
        exact absurd hfs (by simp)

theorem noop_mapping (m : Module) (env : Env) (fap : Dict) (outcome : CallOutcome)
    (cs : String)
    (hap : CombinedMod.get_api_params ["uuid"] m "mapping" true = .ok fap)
    (hout : env.call "get_event_source_mapping" fap = outcome)
    (hfs : fetchedState outcome = some cs)
    (hstate : m.params "state" = .vstr cs) :
    ∃ r, CombinedMod.mapping_resource m env = .ok r ∧ r.changed = false ∧
      r.trace = [⟨"get_event_source_mapping", fap⟩] ∧
      r.results = .vdict (fetchResults outcome) := by
  unfold CombinedMod.mapping_resource
  rw [hap]
  dsimp only
  rw [hout]
  cases outcome with
  | ok v =>
      simp only [fetchedState, Option.some.injEq] at hfs
      subst hfs
      rw [hstate]
      dsimp only
      rw [if_pos rfl]
      exact ⟨_, rfl, rfl, rfl, rfl⟩
  | clientError code emsg =>
      simp only [fetchedState] at hfs
      by_cases hcode : code = "ResourceNotFoundException"
      · rw [if_pos hcode] at hfs
        simp only [Option.some.injEq] at hfs
        subst hfs
        dsimp only
        rw [if_pos hcode]
        dsimp only
        rw [hstate]
        rw [if_pos rfl]
        exact ⟨_, rfl, rfl, rfl, rfl⟩
      · rw [if_neg hcode] at hfs
        exact absurd hfs (by simp)

theorem noop_version (m : Module) (env : Env) (ap : Dict) (outcome : CallOutcome)
    (cs : String)
    (hap : CombinedMod.get_api_params ["function_name"] m "version" true = .ok ap)
    (hout : env.call "get_function_configuration" ap = outcome)
    (hfs : fetchedState outcome = some cs)
    (hstate : m.params "state" = .vstr cs) :
    ∃ r, CombinedMod.publish_version m env = .ok r ∧ r.changed = false ∧
      r.trace = [⟨"get_function_configuration", ap⟩] ∧
      r.results = .vdict (fetchResults outcome) := by
  unfold CombinedMod.publish_version
  rw [hap]
  dsimp only
  rw [hout]
  cases outcome with
  | ok v =>
      simp only [fetchedState, Option.some.injEq] at hfs
      subst hfs
      rw [hstate]
      dsimp only
      rw [if_pos rfl]
      exact ⟨_, rfl, rfl, rfl, rfl⟩
  | clientError code emsg =>
      simp only [fetchedState] at hfs
      by_cases hcode : code = "ResourceNotFoundException"
      · rw [if_pos hcode] at hfs
        simp only [Option.some.injEq] at hfs
        subst hfs
        dsimp only
        rw [if_pos hcode]
        dsimp only
        rw [hstate]
        rw [if_pos rfl]
        exact ⟨_, rfl, rfl, rfl, rfl⟩
      · rw [if_neg hcode] at hfs
        exact absurd hfs (by simp)

theorem noop_policy (m : Module) (env : Env) (ap0 apq aps pj : Dict) (pr : Dict)
    (stmts : List Value) (res : Value) (cs : String)
    (hap0 : CombinedMod.get_api_params ["function_name"] m "policy" true = .ok ap0)
    (hapq : CombinedMod.get_api_params ["qualifier"] m "policy" false = .ok apq)
    (hpol : env.call "get_policy" (dUpdate ap0 apq) = .ok pr)
    (haps : CombinedMod.get_api_params ["statement_id"] m "policy" true = .ok aps)
    (hparse : env.parseJson (asStr (dGetD pr "Policy" (.vstr "\x7b\x7d"))) = .vdict pj)
    (hstmts : dLookup pj "Statement" = some (.vlist stmts))
    (hcur : CombinedMod.policyCurrent (dGet (dUpdate (dUpdate ap0 apq) aps) "StatementId")
      stmts = .ok (res, cs))
    (hstate : m.params "state" = .vstr cs) :
    ∃ r, CombinedMod.policy_resource m env = .ok r ∧ r.changed = false ∧
      r.trace = [⟨"get_policy", dUpdate ap0 apq⟩] ∧ r.results = res := by
  unfold CombinedMod.policy_resource
  rw [hap0]
  dsimp only
  rw [hapq]
  dsimp only
  rw [hpol]
  dsimp only
  rw [hparse]
  rw [haps]
  dsimp only
  unfold vIndex
  dsimp only
  rw [hstmts]
  dsimp only
  rw [hcur]
  dsimp only
  rw [hstate]
  rw [if_pos rfl]
  exact ⟨_, rfl, rfl, rfl, rfl⟩

/-- Claim C3: in every resource operation of the combined module, when the
desired state equals the freshly fetched current state the run stops after
the fetch: no further SDK call is issued, changed is False and the fetched
facts are returned. -/
theorem C3_state_match_is_noop :
    (∀ (m : Module) (env : Env) (ap : Dict) (outcome : CallOutcome) (cs : String),
      CombinedMod.get_api_params ["function_name", "name"] m "alias" true = .ok ap →
      env.call "get_alias" ap = outcome →
      fetchedState outcome = some cs →
      m.params "state" = .vstr cs →
      ∃ r, CombinedMod.alias_resource m env = .ok r ∧ r.changed = false ∧
        r.trace = [⟨"get_alias", ap⟩] ∧ r.results = .vdict (fetchResults outcome)) ∧
    (∀ (m : Module) (env : Env) (ap0 apq : Dict) (outcome : CallOutcome) (cs : String),
      CombinedMod.get_api_params ["function_name"] m "code" true = .ok ap0 →
      CombinedMod.get_api_params ["qualifier"] m "code" false = .ok apq →
      env.call "get_function_configuration" (dUpdate ap0 apq) = outcome →
      fetchedState outcome = some cs →
      m.params "state" = .vstr cs →
      ∃ r, CombinedMod.lambda_code m env = .ok r ∧ r.changed = false ∧
        r.trace = [⟨"get_function_configuration", dUpdate ap0 apq⟩] ∧
        r.results = .vdict (fetchResults outcome)) ∧
    (∀ (m : Module) (env : Env) (ap0 apq : Dict) (outcome : CallOutcome) (cs : String),
      CombinedMod.get_api_params ["function_name"] m "config" true = .ok ap0 →
      CombinedMod.get_api_params ["qualifier"] m "config" false = .ok apq →
      env.call "get_function_configuration" (dUpdate ap0 apq) = outcome →
      fetchedState outcome = some cs →
      m.params "state" = .vstr cs →
      ∃ r, CombinedMod.config_details m env = .ok r ∧ r.changed = false ∧
        r.trace = [⟨"get_function_configuration", dUpdate ap0 apq⟩] ∧
        r.results = .vdict (fetchResults outcome)) ∧
    (∀ (m : Module) (env : Env) (fap : Dict) (outcome : CallOutcome) (cs : String),
      CombinedMod.get_api_params ["uuid"] m "mapping" true = .ok fap →
      env.call "get_event_source_mapping" fap = outcome →
      fetchedState outcome = some cs →
      m.params "state" = .vstr cs →
      ∃ r, CombinedMod.mapping_resource m env = .ok r ∧ r.changed = false ∧
        r.trace = [⟨"get_event_source_mapping", fap⟩] ∧
        r.results = .vdict (fetchResults outcome)) ∧
    (∀ (m : Module) (env : Env) (ap0 apq aps pj : Dict) (pr : Dict) (stmts : List Value)
        (res : Value) (cs : String),
      CombinedMod.get_api_params ["function_name"] m "policy" true = .ok ap0 →
      CombinedMod.get_api_params ["qualifier"] m "policy" false = .ok apq →
      env.call "get_policy" (dUpdate ap0 apq) = .ok pr →
      CombinedMod.get_api_params ["statement_id"] m "policy" true = .ok aps →
      env.parseJson (asStr (dGetD pr "Policy" (.vstr "\x7b\x7d"))) = .vdict pj →
      dLookup pj "Statement" = some (.vlist stmts) →
      CombinedMod.policyCurrent (dGet (dUpdate (dUpdate ap0 apq) aps) "StatementId")
        stmts = .ok (res, cs) →
      m.params "state" = .vstr cs →
      ∃ r, CombinedMod.policy_resource m env = .ok r ∧ r.changed = false ∧
        r.trace = [⟨"get_policy", dUpdate ap0 apq⟩] ∧ r.results = res) ∧
    (∀ (m : Module) (env : Env) (ap : Dict) (outcome : CallOutcome) (cs : String),
      CombinedMod.get_api_params ["function_name"] m "version" true = .ok ap →
      env.call "get_function_configuration" ap = outcome →
      fetchedState outcome = some cs →
      m.params "state" = .vstr cs →
      ∃ r, CombinedMod.publish_version m env = .ok r ∧ r.changed = false ∧
        r.trace = [⟨"get_function_configuration", ap⟩] ∧
        r.results = .vdict (fetchResults outcome)) :=
  ⟨noop_alias, noop_code, noop_config, noop_mapping, noop_policy, noop_version⟩

/-- Witness for C3: at the concrete fixtures every operation of the
combined module leaves state alone and reports changed=False. -/
theorem C3_witness :
    (∃ r, CombinedMod.alias_resource c3m c3env = .ok r ∧ r.changed = false) ∧
    (∃ r, CombinedMod.lambda_code c3m c3env = .ok r ∧ r.changed = false) ∧
    (∃ r, CombinedMod.config_details c3m c3env = .ok r ∧ r.changed = false) ∧
    (∃ r, CombinedMod.mapping_resource c3m c3env = .ok r ∧ r.changed = false) ∧
    (∃ r, CombinedMod.policy_resource c3m c3env = .ok r ∧ r.changed = false) ∧
    (∃ r, CombinedMod.publish_version c3m c3env = .ok r ∧ r.changed = false) := by
  refine ⟨?_, ?_, ?_, ?_, ?_, ?_⟩
  · obtain ⟨r, h1, h2, _⟩ := C3_state_match_is_noop.1 c3m c3env
        [("FunctionName", Value.vstr "fn"), ("Name", Value.vstr "al")]
        (.clientError "ResourceNotFoundException" "nf") "absent" rfl rfl rfl rfl
    exact ⟨r, h1, h2⟩
  · obtain ⟨r, h1, h2, _⟩ := C3_state_match_is_noop.2.1 c3m c3env
        [("FunctionName", Value.vstr "fn")] []
        (.clientError "ResourceNotFoundException" "nf") "absent" rfl rfl rfl rfl rfl
    exact ⟨r, h1, h2⟩
  · obtain ⟨r, h1, h2, _⟩ := C3_state_match_is_noop.2.2.1 c3m c3env
        [("FunctionName", Value.vstr "fn")] []
        (.clientError "ResourceNotFoundException" "nf") "absent" rfl rfl rfl rfl rfl
    exact ⟨r, h1, h2⟩
  · obtain ⟨r, h1, h2, _⟩ := C3_state_match_is_noop.2.2.2.1 c3m c3env
        [("Uuid", Value.vstr "u-1")]
        (.clientError "ResourceNotFoundException" "nf") "absent" rfl rfl rfl rfl
    exact ⟨r, h1, h2⟩
  · obtain ⟨r, h1, h2, _⟩ := C3_state_match_is_noop.2.2.2.2.1 c3m c3env
        [("FunctionName", Value.vstr "fn")] [] [("StatementId", Value.vstr "sid")]
        [("Statement", Value.vlist [])] [("Policy", Value.vstr "p")] []
        (Value.vdict []) "absent" rfl rfl rfl rfl rfl rfl rfl rfl
    exact ⟨r, h1, h2⟩
  · obtain ⟨r, h1, h2, _⟩ := C3_state_match_is_noop.2.2.2.2.2 c3m c3env
        [("FunctionName", Value.vstr "fn")]
        (.clientError "ResourceNotFoundException" "nf") "absent" rfl rfl rfl rfl
    exact ⟨r, h1, h2⟩

/-- Witness for C2: at the concrete fixtures the role differs, so the run
is marked changed. -/
theorem C2_witness :
    ∃ r, LambdaMod.lambda_function c1m c1env = .ok r ∧ r.changed = true := by
  obtain ⟨r, h1, h2, h3⟩ := C2_update_function_configuration_iff_diff c1m c1env c1envr
      [("CodeSha256", Value.vstr "AAA"), ("Role", Value.vstr "r-old")]
      rfl rfl (fun _ _ => rfl) rfl (by decide)
  exact ⟨r, h1, h3 (h2.mpr (Or.inl (by decide)))⟩

theorem isMut_get_alias (a : Dict) : isMutating ⟨"get_alias", a⟩ = false := rfl

theorem isMut_get_function_configuration (a : Dict) :
    isMutating ⟨"get_function_configuration", a⟩ = false := rfl

theorem isMut_get_event_source_mapping (a : Dict) :
    isMutating ⟨"get_event_source_mapping", a⟩ = false := rfl

theorem isMut_get_policy (a : Dict) : isMutating ⟨"get_policy", a⟩ = false := rfl

theorem isMut_get_bucket_notification_configuration (a : Dict) :
    isMutating ⟨"get_bucket_notification_configuration", a⟩ = false := rfl

theorem isMut_delete_alias (a : Dict) : isMutating ⟨"delete_alias", a⟩ = true := rfl

theorem isMut_create_alias (a : Dict) : isMutating ⟨"create_alias", a⟩ = true := rfl

theorem isMut_update_alias (a : Dict) : isMutating ⟨"update_alias", a⟩ = true := rfl

theorem isMut_delete_function (a : Dict) : isMutating ⟨"delete_function", a⟩ = true := rfl

theorem isMut_create_function (a : Dict) : isMutating ⟨"create_function", a⟩ = true := rfl

theorem isMut_update_function_code (a : Dict) :
    isMutating ⟨"update_function_code", a⟩ = true := rfl

theorem isMut_update_function_configuration (a : Dict) :
    isMutating ⟨"update_function_configuration", a⟩ = true := rfl

theorem isMut_publish_version (a : Dict) : isMutating ⟨"publish_version", a⟩ = true := rfl

theorem isMut_remove_permission (a : Dict) : isMutating ⟨"remove_permission", a⟩ = true := rfl

theorem isMut_add_permission (a : Dict) : isMutating ⟨"add_permission", a⟩ = true := rfl

theorem isMut_create_event_source_mapping (a : Dict) :
    isMutating ⟨"create_event_source_mapping", a⟩ = true := rfl

theorem isMut_delete_event_source_mapping (a : Dict) :
    isMutating ⟨"delete_event_source_mapping", a⟩ = true := rfl

theorem isMut_put_bucket_notification_configuration (a : Dict) :
    isMutating ⟨"put_bucket_notification_configuration", a⟩ = true := rfl

theorem isMut_upload_file (a : Dict) : isMutating ⟨"upload_file", a⟩ = true := rfl

theorem tryCall_trace (env : Env) (cm : Bool) (mth : String) (args : Dict)
    (pfx : String) (prev rr : Dict) (t : List ApiCall)
    (h : tryCall env cm mth args pfx prev = .ok (rr, t)) :
    t = [] ∨ t = [⟨mth, args⟩] := by
  unfold tryCall at h
  repeat' first
    | split at h
    | dsimp only at h
  all_goals first
    | exact Except.noConfusion h
    | (cases Except.ok.inj h; simp)

theorem uploadPart_trace (m : Module) (env : Env) (t : List ApiCall)
    (h : (if m.checkMode then Except.ok [] else LambdaMod.upload_to_s3 m env) = .ok t) :
    t = [] ∨ t = [⟨"upload_file", LambdaMod.uploadArgs m⟩] := by
  unfold LambdaMod.upload_to_s3 at h
  repeat' first
    | split at h
    | dsimp only at h
  all_goals first
    | exact Except.noConfusion h
    | (cases Except.ok.inj h; simp)

theorem bound_alias (m : Module) (env : Env) (r : RunResult)
    (h : CombinedMod.alias_resource m env = .ok r) :
    (r.trace.filter isMutating).length ≤ 1 := by
  unfold CombinedMod.alias_resource tryCallNC at h
  repeat' first
    | split at h
    | dsimp only at h
  all_goals first
    | exact Except.noConfusion h
    | (cases Except.ok.inj h
       simp [List.filter_append, List.filter_cons, List.filter_nil, isMut_get_alias,
         isMut_delete_alias, isMut_create_alias, isMut_update_alias]
       try (split <;> simp)
       done)
    | (cases Except.ok.inj h
       simp_all [List.filter_append, List.filter_cons, List.filter_nil, isMut_get_alias,
         isMut_delete_alias, isMut_create_alias, isMut_update_alias]
       try (split <;> simp)
       done)

theorem bound_lambda_code (m : Module) (env : Env) (r : RunResult)
    (h : CombinedMod.lambda_code m env = .ok r) :
    (r.trace.filter isMutating).length ≤ 1 := by
  unfold CombinedMod.lambda_code tryCallNC at h
  repeat' first
    | split at h
    | dsimp only at h
  all_goals first
    | exact Except.noConfusion h
    | (cases Except.ok.inj h
       simp [List.filter_append, List.filter_cons, List.filter_nil,
         isMut_get_function_configuration]
       try (split <;> simp)
       done)
    | (cases Except.ok.inj h
       simp_all [List.filter_append, List.filter_cons, List.filter_nil,
         isMut_get_function_configuration]
       try (split <;> simp)
       done)

theorem bound_config_details (m : Module) (env : Env) (r : RunResult)
    (h : CombinedMod.config_details m env = .ok r) :
    (r.trace.filter isMutating).length ≤ 1 := by
  unfold CombinedMod.config_details tryCallNC at h
  repeat' first
    | split at h
    | dsimp only at h
  all_goals first
    | exact Except.noConfusion h
    | (cases Except.ok.inj h
       simp [List.filter_append, List.filter_cons, List.filter_nil,
         isMut_get_function_configuration]
       try (split <;> simp)
       done)
    | (cases Except.ok.inj h
       simp_all [List.filter_append, List.filter_cons, List.filter_nil,
         isMut_get_function_configuration]
       try (split <;> simp)
       done)

theorem bound_mapping_resource (m : Module) (env : Env) (r : RunResult)
    (h : CombinedMod.mapping_resource m env = .ok r) :
    (r.trace.filter isMutating).length ≤ 1 := by
  unfold CombinedMod.mapping_resource tryCallNC at h
  repeat' first
    | split at h
    | dsimp only at h
  all_goals first
    | exact Except.noConfusion h
    | (cases Except.ok.inj h
       simp [List.filter_append, List.filter_cons, List.filter_nil,
         isMut_get_event_source_mapping]
       try (split <;> simp)
       done)
    | (cases Except.ok.inj h
       simp_all [List.filter_append, List.filter_cons, List.filter_nil,
         isMut_get_event_source_mapping]
       try (split <;> simp)
       done)

theorem bound_policy_resource (m : Module) (env : Env) (r : RunResult)
    (h : CombinedMod.policy_resource m env = .ok r) :
    (r.trace.filter isMutating).length ≤ 1 := by
  unfold CombinedMod.policy_resource tryCallNC at h
  repeat' first
    | split at h
    | dsimp only at h
  all_goals first
    | exact Except.noConfusion h
    | (cases Except.ok.inj h
       simp [List.filter_append, List.filter_cons, List.filter_nil, isMut_get_policy]
       try (split <;> simp)
       done)
    | (cases Except.ok.inj h
       simp_all [List.filter_append, List.filter_cons, List.filter_nil, isMut_get_policy]
       try (split <;> simp)
       done)

theorem bound_publish_version (m : Module) (env : Env) (r : RunResult)
    (h : CombinedMod.publish_version m env = .ok r) :
    (r.trace.filter isMutating).length ≤ 1 := by
  unfold CombinedMod.publish_version tryCallNC at h
  repeat' first
    | split at h
    | dsimp only at h
  all_goals first
    | exact Except.noConfusion h
    | (cases Except.ok.inj h
       simp [List.filter_append, List.filter_cons, List.filter_nil,
         isMut_get_function_configuration]
       try (split <;> simp)
       done)
    | (cases Except.ok.inj h
       simp_all [List.filter_append, List.filter_cons, List.filter_nil,
         isMut_get_function_configuration]
       try (split <;> simp)
       done)

theorem bound_lambda_alias (m : Module) (env : Env) (r : RunResult)
    (h : LambdaAlias.lambda_alias m env = .ok r) :
    (r.trace.filter isMutating).length ≤ 1 := by
  unfold LambdaAlias.lambda_alias LambdaAlias.get_lambda_alias at h
  repeat' first
    | split at h
    | dsimp only at h
  all_goals first
    | exact Except.noConfusion h
    | (cases Except.ok.inj h
       simp [List.filter_append, List.filter_cons, List.filter_nil, isMut_get_alias,
         isMut_update_alias]
       try (split <;> simp)
       done)
    | (cases Except.ok.inj h
       simp_all [List.filter_append, List.filter_cons, List.filter_nil, isMut_get_alias,
         isMut_update_alias]
       try (split <;> simp)
       done)
    | (cases Except.ok.inj h
       rename_i heq2
       rcases tryCall_trace _ _ _ _ _ _ _ _ heq2 with h1 | h1 <;> subst h1 <;>
         simp [List.filter_append, List.filter_cons, List.filter_nil, isMut_get_alias,
           isMut_delete_alias, isMut_create_alias]
       done)

theorem bound_s3_event (m : Module) (env : Env) (r : RunResult)
    (h : S3Event.lambda_event_notification m env = .ok r) :
    (r.trace.filter isMutating).length ≤ 1 := by
  unfold S3Event.lambda_event_notification tryCallNC at h
  repeat' first
    | split at h
    | dsimp only at h
  all_goals first
    | exact Except.noConfusion h
    | (cases Except.ok.inj h
       simp [List.filter_append, List.filter_cons, List.filter_nil,
         isMut_get_bucket_notification_configuration]
       try (split <;> simp)
       done)
    | (cases Except.ok.inj h
       simp_all [List.filter_append, List.filter_cons, List.filter_nil,
         isMut_get_bucket_notification_configuration]
       try (split <;> simp)
       done)

theorem codeStep_bound (m : Module) (env : Env) (facts rr : Dict) (c : Bool)
    (t : List ApiCall) (h : LambdaMod.codeStep m env facts = .ok (rr, c, t)) :
    (t.filter isMutating).length ≤ 2 := by
  unfold LambdaMod.codeStep at h
  dsimp only at h
  by_cases hsha : dGet facts (pc "code_sha256") ≠ m.localHash
  case neg =>
    rw [if_neg hsha] at h
    cases Except.ok.inj h
    simp
  rw [if_pos hsha] at h
  · cases hu : (if m.checkMode then Except.ok [] else LambdaMod.upload_to_s3 m env) with
    | error e => rw [hu] at h; exact Except.noConfusion h
    | ok upl =>
        rw [hu] at h
        dsimp only at h
        cases ht : tryCall env m.checkMode "update_function_code"
            (dUpdate (set_api_params m ["function_name"])
              (set_api_params m ["s3_bucket", "s3_key", "s3_object_version"]))
            "Error updating function code: " [] with
        | error e => rw [ht] at h; exact Except.noConfusion h
        | ok rt =>
            obtain ⟨r2, t2⟩ := rt
            rw [ht] at h
            dsimp only at h
            cases Except.ok.inj h
            rcases uploadPart_trace m env upl hu with h1 | h1 <;>
              rcases tryCall_trace _ _ _ _ _ _ _ _ ht with h2 | h2 <;>
              subst h1 <;> subst h2 <;> simp [isMut_upload_file, isMut_update_function_code]

theorem configStep_bound (m : Module) (env : Env) (facts results1 rr : Dict)
    (changed1 c : Bool) (t : List ApiCall)
    (h : LambdaMod.configStep m env facts results1 changed1 = .ok (rr, c, t)) :
    (t.filter isMutating).length ≤ 1 := by
  unfold LambdaMod.configStep at h
  repeat' first
    | split at h
    | dsimp only at h
  all_goals first
    | exact Except.noConfusion h
    | (cases Except.ok.inj h
       rename_i ht
       rcases tryCall_trace _ _ _ _ _ _ _ _ ht with h1 | h1 <;> subst h1 <;>
         simp [isMut_update_function_configuration])
    | (cases Except.ok.inj h; simp)

theorem publishStep_bound (m : Module) (env : Env) (results2 rr : Dict)
    (changed2 c : Bool) (t : List ApiCall)
    (h : LambdaMod.publishStep m env results2 changed2 = .ok (rr, c, t)) :
    (t.filter isMutating).length ≤ 1 := by
  unfold LambdaMod.publishStep at h
  repeat' first
    | split at h
    | dsimp only at h
  all_goals first
    | exact Except.noConfusion h
    | (cases Except.ok.inj h
       rename_i ht
       rcases tryCall_trace _ _ _ _ _ _ _ _ ht with h1 | h1 <;> subst h1 <;>
         simp [isMut_publish_version])
    | (cases Except.ok.inj h; simp)

theorem bound_lambda_function (m : Module) (env : Env) (r : RunResult)
    (h : LambdaMod.lambda_function m env = .ok r) :
    (r.trace.filter isMutating).length ≤ 4 := by
  have hfetch0 : (List.filter isMutating
      [(⟨"get_function_configuration", LambdaMod.configFetchParams m⟩ : ApiCall)]).length = 0 := by
    simp [isMut_get_function_configuration]
  unfold LambdaMod.lambda_function at h
  cases hfc : LambdaMod.get_lambda_config m env with
  | error e => rw [hfc] at h; exact Except.noConfusion h
  | ok facts? =>
      rw [hfc] at h
      dsimp only at h
      by_cases hs : m.params "state" = Value.vstr "present"
      · rw [if_pos hs] at h
        by_cases hcur : (if factsTruthy facts? then "present" else "absent") = "present"
        · rw [if_pos hcur] at h
          cases h1 : LambdaMod.codeStep m env (facts?.getD []) with
          | error e => rw [h1] at h; exact Except.noConfusion h
          | ok v1 =>
              obtain ⟨r1, c1, t1⟩ := v1
              rw [h1] at h
              dsimp only at h
              cases h2 : LambdaMod.configStep m env (facts?.getD []) r1 c1 with
              | error e => rw [h2] at h; exact Except.noConfusion h
              | ok v2 =>
                  obtain ⟨r2, c2, t2⟩ := v2
                  rw [h2] at h
                  dsimp only at h
                  cases h3 : LambdaMod.publishStep m env r2 c2 with
                  | error e => rw [h3] at h; exact Except.noConfusion h
                  | ok v3 =>
                      obtain ⟨r3, c3, t3⟩ := v3
                      rw [h3] at h
                      dsimp only at h
                      cases Except.ok.inj h
                      have b1 := codeStep_bound _ _ _ _ _ _ h1
                      have b2 := configStep_bound _ _ _ _ _ _ _ _ h2
                      have b3 := publishStep_bound _ _ _ _ _ _ _ h3
                      simp only [List.filter_append, List.length_append, hfetch0]
                      omega
        · rw [if_neg hcur] at h
          cases hu : (if m.checkMode then Except.ok [] else LambdaMod.upload_to_s3 m env) with
          | error e => rw [hu] at h; exact Except.noConfusion h
          | ok upl =>
              rw [hu] at h
              dsimp only at h
              cases ht : tryCall env m.checkMode "create_function"
                  (dUpdate (dUpdate (dUpdate
                      (set_api_params m ["function_name", "runtime", "role", "handler"])
                      (set_api_params m ["memory_size", "timeout", "description", "publish"]))
                    [("Code", Value.vdict (set_api_params m ["s3_bucket", "s3_key", "s3_object_version"]))])
                    [("VpcConfig", Value.vdict (set_api_params m LambdaMod.vpc_params))])
                  "Error creating: " [] with
              | error e => rw [ht] at h; exact Except.noConfusion h
              | ok rt =>
                  obtain ⟨r4, t4⟩ := rt
                  rw [ht] at h
                  dsimp only at h
                  cases Except.ok.inj h
                  rcases uploadPart_trace _ _ _ hu with h5 | h5 <;>
                    rcases tryCall_trace _ _ _ _ _ _ _ _ ht with h6 | h6 <;>
                    subst h5 <;> subst h6 <;>
                    simp [isMut_upload_file, isMut_create_function,
                      isMut_get_function_configuration]
      · rw [if_neg hs] at h
        by_cases hcur : (if factsTruthy facts? then "present" else "absent") = "present"
        · rw [if_pos hcur] at h
          cases ht : tryCall env m.checkMode "delete_function"
              (if pyInt (m.params "version") > 0 then
                dUpdate (set_api_params m ["function_name"])
                  [("Qualifier", Value.vstr (pyStr (m.params "version")))]
              else set_api_params m ["function_name"])
              "Error deleting function: " [] with
          | error e => rw [ht] at h; exact Except.noConfusion h
          | ok rt =>
              obtain ⟨r4, t4⟩ := rt
              rw [ht] at h
              dsimp only at h
              cases Except.ok.inj h
              rcases tryCall_trace _ _ _ _ _ _ _ _ ht with h6 | h6 <;> subst h6 <;>
                simp [isMut_delete_function, isMut_get_function_configuration]
        · rw [if_neg hcur] at h
          cases Except.ok.inj h
          simp [isMut_get_function_configuration]

/-- Counterexample for claim C1 as stated: a single lambda_function run
with state present on an existing function issues four corrective
(state-mutating) calls, the S3 upload, the code update, the configuration
update and the version publish. -/
theorem C1_counterexample :
    ∃ r, LambdaMod.lambda_function c1m c1env = .ok r ∧
      (r.trace.filter isMutating).length = 4 ∧
      ¬ (r.trace.filter isMutating).length ≤ 1 :=
  ⟨_, rfl, by decide, by decide⟩

/-- Claim C1 (amended): every resource operation of the combined module,
of the alias module and of the s3 event module issues at most one
corrective call per run before returning, while lambda_function issues at
most four corrective calls (S3 upload, code update, configuration update,
version publish) in a single run. -/
theorem C1_corrective_call_bounds :
    (∀ (m : Module) (env : Env) (r : RunResult), CombinedMod.alias_resource m env = .ok r →
      (r.trace.filter isMutating).length ≤ 1) ∧
    (∀ (m : Module) (env : Env) (r : RunResult), CombinedMod.lambda_code m env = .ok r →
      (r.trace.filter isMutating).length ≤ 1) ∧
    (∀ (m : Module) (env : Env) (r : RunResult), CombinedMod.config_details m env = .ok r →
      (r.trace.filter isMutating).length ≤ 1) ∧
    (∀ (m : Module) (env : Env) (r : RunResult), CombinedMod.mapping_resource m env = .ok r →
      (r.trace.filter isMutating).length ≤ 1) ∧
    (∀ (m : Module) (env : Env) (r : RunResult), CombinedMod.policy_resource m env = .ok r →
      (r.trace.filter isMutating).length ≤ 1) ∧
    (∀ (m : Module) (env : Env) (r : RunResult), CombinedMod.publish_version m env = .ok r →
      (r.trace.filter isMutating).length ≤ 1) ∧
    (∀ (m : Module) (env : Env) (r : RunResult), LambdaAlias.lambda_alias m env = .ok r →
      (r.trace.filter isMutating).length ≤ 1) ∧
    (∀ (m : Module) (env : Env) (r : RunResult), S3Event.lambda_event_notification m env = .ok r →
      (r.trace.filter isMutating).length ≤ 1) ∧
    (∀ (m : Module) (env : Env) (r : RunResult), LambdaMod.lambda_function m env = .ok r →
      (r.trace.filter isMutating).length ≤ 4) :=
  ⟨bound_alias, bound_lambda_code, bound_config_details, bound_mapping_resource,
   bound_policy_resource, bound_publish_version, bound_lambda_alias, bound_s3_event,
   bound_lambda_function⟩

/-- Witness for C1 (amended) at concrete runs of all nine operations. -/
theorem C1_witness :
    (∃ r, CombinedMod.alias_resource c3m c3env = .ok r ∧
      (r.trace.filter isMutating).length ≤ 1) ∧
    (∃ r, CombinedMod.lambda_code c3m c3env = .ok r ∧
      (r.trace.filter isMutating).length ≤ 1) ∧
    (∃ r, CombinedMod.config_details c3m c3env = .ok r ∧
      (r.trace.filter isMutating).length ≤ 1) ∧
    (∃ r, CombinedMod.mapping_resource c3m c3env = .ok r ∧
      (r.trace.filter isMutating).length ≤ 1) ∧
    (∃ r, CombinedMod.policy_resource c3m c3env = .ok r ∧
      (r.trace.filter isMutating).length ≤ 1) ∧
    (∃ r, CombinedMod.publish_version c3m c3env = .ok r ∧
      (r.trace.filter isMutating).length ≤ 1) ∧
    (∃ r, LambdaAlias.lambda_alias c3m c3env = .ok r ∧
      (r.trace.filter isMutating).length ≤ 1) ∧
    (∃ r, S3Event.lambda_event_notification c3m c3env = .ok r ∧
      (r.trace.filter isMutating).length ≤ 1) ∧
    (∃ r, LambdaMod.lambda_function c1m c1env = .ok r ∧
      (r.trace.filter isMutating).length ≤ 4) :=
  ⟨⟨_, rfl, C1_corrective_call_bounds.1 c3m c3env _ rfl⟩,
   ⟨_, rfl, C1_corrective_call_bounds.2.1 c3m c3env _ rfl⟩,
   ⟨_, rfl, C1_corrective_call_bounds.2.2.1 c3m c3env _ rfl⟩,
   ⟨_, rfl, C1_corrective_call_bounds.2.2.2.1 c3m c3env _ rfl⟩,
   ⟨_, rfl, C1_corrective_call_bounds.2.2.2.2.1 c3m c3env _ rfl⟩,
   ⟨_, rfl, C1_corrective_call_bounds.2.2.2.2.2.1 c3m c3env _ rfl⟩,
   ⟨_, rfl, C1_corrective_call_bounds.2.2.2.2.2.2.1 c3m c3env _ rfl⟩,
   ⟨_, rfl, C1_corrective_call_bounds.2.2.2.2.2.2.2.1 c3m c3env _ rfl⟩,
   ⟨_, rfl, C1_corrective_call_bounds.2.2.2.2.2.2.2.2 c1m c1env _ rfl⟩⟩

/-- Claim C7: `pc` returns the concatenation of the underscore-separated
tokens of its argument, each token with its first character upper-cased and
the remaining characters lower-cased; in particular this_function_name
maps to ThisFunctionName and uuid maps to Uuid. -/
theorem C7_pc_pascal_case :
    (∀ key, pc key = pcSpec key) ∧
      pc "this_function_name" = "ThisFunctionName" ∧ pc "uuid" = "Uuid" := by
  refine ⟨fun key => ?_, by decide, by decide⟩
  have hfun : ∀ t : List Char, String.mk (capitalizeL t) =
      String.mk ((t.take 1).map Char.toUpper ++ (t.drop 1).map Char.toLower) := by
    intro t; cases t <;> simp [capitalizeL]
  simp [pc, pcSpec, hfun]

/-- Claim C5: the VPC-change test of `lambda_function` is the sorted-list
comparison `vpcCheck` of the extracted parameter and VpcConfig lists; that
comparison reports no change whenever the parameter lists are permutations
of the fetched lists, and permuting either parameter list never changes its
verdict. -/
theorem C5_vpc_check_perm_invariant :
    (∀ (m : Module) (facts : Dict),
        LambdaMod.vpcChanged m facts =
          LambdaMod.vpcCheck (asStrList (m.params "subnet_ids"))
            (asStrList (m.params "security_group_ids"))
            (asStrList (vGetD (dGetD facts "VpcConfig" (.vdict [])) "SubnetIds" (.vlist [])))
            (asStrList (vGetD (dGetD facts "VpcConfig" (.vdict [])) "SecurityGroupIds" (.vlist [])))) ∧
    (∀ pS pG cS cG, pS.Perm cS → pG.Perm cG → LambdaMod.vpcCheck pS pG cS cG = false) ∧
    (∀ pS pS2 pG pG2 cS cG, pS.Perm pS2 → pG.Perm pG2 →
        LambdaMod.vpcCheck pS pG cS cG = LambdaMod.vpcCheck pS2 pG2 cS cG) := by
  refine ⟨fun m facts => ?_, fun pS pG cS cG h1 h2 => ?_, fun pS pS2 pG pG2 cS cG h1 h2 => ?_⟩
  · simp [LambdaMod.vpcChanged, LambdaMod.vpc_params, LambdaMod.vpcCheck, pySortedV,
      pc_subnet_ids, pc_security_group_ids]
  · simp [LambdaMod.vpcCheck, pySorted_perm_eq h1, pySorted_perm_eq h2]
  · simp [LambdaMod.vpcCheck, pySorted_perm_eq h1, pySorted_perm_eq h2]

/-- Witness for C5 at concrete lists. -/
theorem C5_witness :
    LambdaMod.vpcCheck ["s-1", "s-2"] ["g-1"] ["s-2", "s-1"] ["g-1"] = false ∧
      LambdaMod.vpcCheck ["s-1", "s-2"] ["g-1"] ["s-9"] ["g-1"] =
        LambdaMod.vpcCheck ["s-2", "s-1"] ["g-1"] ["s-9"] ["g-1"] :=
  ⟨C5_vpc_check_perm_invariant.2.1 _ _ _ _ (by decide) (by decide),
   C5_vpc_check_perm_invariant.2.2 _ _ _ _ _ _ (by decide) (by decide)⟩

/-- Claim C10: `validate_params` of the lambda_alias module rewrites the
function_version parameter, mapping the integer 0 to the string $LATEST and
every nonzero integer to its decimal rendering, so that after validation
the parameter is always a string. -/
theorem C10_function_version_rewrite :
    ∀ (m m2 : Module), LambdaAlias.validate_params m = .ok m2 →
      (m.params "function_version" = .vint 0 →
          m2.params "function_version" = .vstr "$LATEST") ∧
      (∀ i : Int, i ≠ 0 → m.params "function_version" = .vint i →
          m2.params "function_version" = .vstr (toString i)) ∧
      (∃ s, m2.params "function_version" = .vstr s) := by
  intro m m2 h
  unfold LambdaAlias.validate_params at h
  dsimp only at h
  split at h
  · exact absurd h (by simp)
  split at h
  · exact absurd h (by simp)
  simp only [Except.ok.injEq] at h
  subst h
  refine ⟨fun h0 => by simp [h0], fun i hi hv => ?_, ?_⟩
  · simp only [hv]
    have : Value.vint i ≠ Value.vint 0 := by simp [hi]
    simp [this, pyStr]
  · by_cases h0 : m.params "function_version" = Value.vint 0 <;> simp [h0]

/-- Witness for C10 at a concrete module. -/
theorem C10_witness :
    ∃ m2, LambdaAlias.validate_params
        { params := fun k => if k = "function_version" then Value.vint 0 else Value.vstr "fn",
          checkMode := false, localHash := Value.vnone } = .ok m2 ∧
      m2.params "function_version" = .vstr "$LATEST" := by
  have h := C10_function_version_rewrite
      { params := fun k => if k = "function_version" then Value.vint 0 else Value.vstr "fn",
        checkMode := false, localHash := Value.vnone } _ rfl
  exact ⟨_, rfl, h.1 rfl⟩

/-- Claim C4: `get_lambda_config` returns None exactly when the SDK call
raises a client error coded ResourceNotFoundException; on any other client
error the module fails with a message containing the SDK exception message;
on success the SDK result is returned unmodified. -/
theorem C4_get_lambda_config_error_handling :
    ∀ (m : Module) (env : Env) (outcome : CallOutcome),
      env.call "get_function_configuration" (LambdaMod.configFetchParams m) = outcome →
      ((LambdaMod.get_lambda_config m env = .ok none) ↔
        ∃ emsg, outcome = .clientError "ResourceNotFoundException" emsg) ∧
      (∀ v, outcome = .ok v → LambdaMod.get_lambda_config m env = .ok (some v)) ∧
      (∀ code emsg, outcome = .clientError code emsg →
        code ≠ "ResourceNotFoundException" →
        ∃ pre suf, LambdaMod.get_lambda_config m env = .error (pre ++ emsg ++ suf)) := by
  intro m env outcome h
  unfold LambdaMod.get_lambda_config
  rw [h]
  cases outcome with
  | ok v => simp
  | clientError code emsg =>
      by_cases hc : code = "ResourceNotFoundException"
      · subst hc
        simp
      · simp only [hc, if_false]
        refine ⟨by simp [hc], by simp, fun code2 emsg2 he hne => ?_⟩
        obtain ⟨h1, h2⟩ := CallOutcome.clientError.inj he
        subst h1; subst h2
        exact ⟨"Error retrieving function configuration: ", "", by simp⟩

/-- Witness for C4 at a concrete environment raising
ResourceNotFoundException. -/
theorem C4_witness :
    LambdaMod.get_lambda_config
        { params := fun _ => Value.vnone, checkMode := false, localHash := Value.vnone }
        { call := fun _ _ => .clientError "ResourceNotFoundException" "not found",
          parseJson := fun _ => Value.vnone } = .ok none :=
  ((C4_get_lambda_config_error_handling _ _ _ rfl).1).mpr ⟨"not found", rfl⟩

end AnsibleLambda
